import Mathlib

/-! Disaster dashboard: marker filter, chart refresher, measurement simulator,
alert feed and notification channel.

A shallow embedding of the logic of `src/frontend-script.js` (the main page
script) and of the marker filter, the alert feed and the notifications of
`src/script.js` (the second variant of the page), followed by theorems about
them.

Conventions of the embedding.

* JavaScript numbers are rationals (`ℚ`) where a fraction can occur and
  integers (`ℤ`) where the script only ever stores `Math.floor(..) + k`.
* `Math.random()` is a draw `r : ℚ` with `0 ≤ r < 1`.  A callback that calls
  `Math.random()` several times receives `rand : ℕ → ℚ`, the sequence of
  results in call order.  Products such as `Math.random() * 80` are exact
  rational products.
* Module-level variables and the parts of the document the script writes are
  the fields of `Page`; every function of the script is a function on `Page`.
* `setTimeout` callbacks are pending timeouts in the state, each with the
  time left until it fires; `elapse d` is the passing of `d` ms with no other
  event.
* The mapping and charting libraries are collaborators: a marker is the
  record of the style it was created with plus the opacity and the stacking
  offset the script sets on it, a chart is its label array, its value array
  and the number of redraws requested.
-/

namespace Dashboard

/-! ## JavaScript values -/

/-- The JavaScript values the filter compares: a string, or `undefined`
(what reading a property that an object lacks evaluates to). -/
inductive Value where
  | undefined : Value
  | string (s : String) : Value
  deriving DecidableEq, Repr

/-- Strict equality `===` on `Value`. -/
def Value.strictEq (a b : Value) : Bool :=
  match a, b with
  | .undefined, .undefined => true
  | .string x, .string y => x == y
  | _, _ => false

/-- String conversion of a value inside a template literal or a `+` with a
string. -/
def Value.toJSString : Value → String
  | .undefined => "undefined"
  | .string s => s

/-! ## Fixture data (`disasterData`) -/

/-- One entry of `disasterData`. -/
structure DisasterRecord where
  id : Nat
  type : String
  severity : String
  lat : ℚ
  lng : ℚ
  title : String
  description : String
  time : String
  affected : String
  windSpeed : Nat
  temperature : Nat
  humidity : Nat
  deriving DecidableEq, Repr

/-- The `disasterData` constant of `frontend-script.js`.  `time` is the value
of `new Date().toISOString()` when the script is loaded. -/
def disasterData (time : String) : List DisasterRecord :=
  [ { id := 1, type := "flood", severity := "critical",
      lat := 407128 / 10000, lng := -740060 / 10000,
      title := "Flash Flood Emergency",
      description := "Severe flooding in Manhattan area",
      time := time, affected := "5,000+ people",
      windSpeed := 45, temperature := 18, humidity := 85 },
    { id := 2, type := "earthquake", severity := "high",
      lat := 340522 / 10000, lng := -1182437 / 10000,
      title := "Magnitude 5.8 Earthquake",
      description := "Earthquake detected near Los Angeles",
      time := time, affected := "12,000+ people",
      windSpeed := 12, temperature := 22, humidity := 45 },
    { id := 3, type := "fire", severity := "medium",
      lat := 377749 / 10000, lng := -1224194 / 10000,
      title := "Wildfire Alert",
      description := "Wildfire spreading in Napa Valley",
      time := time, affected := "800+ people",
      windSpeed := 25, temperature := 35, humidity := 25 },
    { id := 4, type := "storm", severity := "high",
      lat := 418781 / 10000, lng := -876298 / 10000,
      title := "Severe Thunderstorm",
      description := "Heavy rain and strong winds in Chicago",
      time := time, affected := "3,500+ people",
      windSpeed := 65, temperature := 15, humidity := 90 },
    { id := 5, type := "landslide", severity := "medium",
      lat := 476062 / 10000, lng := -1223321 / 10000,
      title := "Landslide Warning",
      description := "Landslide risk in Seattle area",
      time := time, affected := "300+ people",
      windSpeed := 18, temperature := 12, humidity := 75 } ]

/-! ## Markers and marker handles -/

/-- A circle marker of the mapping collaborator: the style it was created
with, and the two properties the filter sets afterwards (`setOpacity`,
`setZIndexOffset`).  The popup bound to the marker is presentation only and
is left out. -/
structure Marker where
  lat : ℚ
  lng : ℚ
  radius : Nat
  fillColor : Value
  color : String
  weight : Nat
  opacity : ℚ
  fillOpacity : ℚ
  zIndexOffset : ℤ
  deriving DecidableEq, Repr

/-- Collaborator call `marker.setOpacity(o)`. -/
def Marker.setOpacity (m : Marker) (o : ℚ) : Marker :=
  { m with opacity := o }

/-- Collaborator call `marker.setZIndexOffset(z)`. -/
def Marker.setZIndexOffset (m : Marker) (z : ℤ) : Marker :=
  { m with zIndexOffset := z }

/-- An element of `disasterMarkers`: the object literal
`{ marker, type: disaster.type, severity: disaster.severity }`. -/
structure Handle where
  marker : Marker
  type : String
  severity : String
  deriving DecidableEq, Repr

/-- Reading a string-valued property of a handle object by name.  The object
has the own properties `type` and `severity` (and `marker`, which is not a
string); any other name reads as `undefined`. -/
def Handle.getProp (h : Handle) (key : String) : Value :=
  if key = "type" then .string h.type
  else if key = "severity" then .string h.severity
  else .undefined

/-- The `colors` table of `addDisasterMarker`. -/
def markerColors (type : String) : Value :=
  if type = "flood" then .string "#3b82f6"
  else if type = "earthquake" then .string "#ef4444"
  else if type = "fire" then .string "#f97316"
  else if type = "storm" then .string "#8b5cf6"
  else if type = "landslide" then .string "#10b981"
  else .undefined

/-- The `sizeColors` table of `addDisasterMarker`, with its `|| 10`
default. -/
def markerRadius (severity : String) : Nat :=
  if severity = "critical" then 15
  else if severity = "high" then 12
  else if severity = "medium" then 10
  else if severity = "low" then 8
  else 10

/-- The marker `L.circleMarker([lat, lng], {...})` created by
`addDisasterMarker`.  The stacking offset of a fresh marker is the
collaborator default `0`. -/
def newMarker (disaster : DisasterRecord) : Marker :=
  { lat := disaster.lat, lng := disaster.lng,
    radius := markerRadius disaster.severity,
    fillColor := markerColors disaster.type,
    color := "#fff", weight := 2, opacity := 1, fillOpacity := 8 / 10,
    zIndexOffset := 0 }

/-- The function `addDisasterMarker(disaster)`, as its effect on the
`disasterMarkers` array: one handle is pushed. -/
def addDisasterMarker (markers : List Handle) (disaster : DisasterRecord) :
    List Handle :=
  markers ++ [{ marker := newMarker disaster, type := disaster.type,
                severity := disaster.severity }]

/-- The marker loop of `initializeMap`:
`disasterData.forEach(disaster => addDisasterMarker(disaster))`. -/
def addDisasterMarkers (markers : List Handle) (data : List DisasterRecord) :
    List Handle :=
  data.foldl addDisasterMarker markers

/-! ## Charts -/

/-- A chart of the charting collaborator: `data.labels`,
`data.datasets[0].data`, and how many times `update` was called on it. -/
structure Chart where
  kind : String
  labels : List String
  data : List ℤ
  updates : Nat
  deriving DecidableEq, Repr

/-- The module-level `charts` object: `charts.disaster` and
`charts.activity`, each absent until `initializeCharts` has run. -/
structure Charts where
  disaster : Option Chart
  activity : Option Chart
  deriving DecidableEq, Repr

/-! ## The notification container and timers -/

/-- The element `#notificationContainer`: its class list and its
`innerHTML`. -/
structure NotificationContainer where
  classList : List String
  innerHTML : String
  deriving DecidableEq, Repr

/-- A pending `setTimeout` callback of `showNotification`: the time (ms)
left until it fires; when it fires it removes the class `show` from the
notification container. -/
structure Timeout where
  delay : Nat
  deriving DecidableEq, Repr

/-- An element the script writes text or a bar width into: its
`textContent` and the percentage of `style.width` (`none` until set). -/
structure Slot where
  textContent : String
  width : Option ℚ
  deriving DecidableEq, Repr

/-- A child of `#alertsContainer`: the `className` and `innerHTML` of one
alert card. -/
structure AlertCard where
  className : String
  innerHTML : String
  deriving DecidableEq, Repr

/-! ## Page state -/

/-- The state of the page of `frontend-script.js`: the module-level
variables `disasterMarkers`, `charts`, `currentFilter`, and the parts of the
document the script writes (`#notificationContainer`, the text and bar
elements by id, the cards of `#alertsContainer`), with the pending
notification timeouts.  The clock is not part of the state: a function that
reads `new Date()` takes the time as an argument. -/
structure Page where
  disasterMarkers : List Handle
  charts : Charts
  currentFilter : Value
  notificationContainer : NotificationContainer
  timeouts : List Timeout
  elements : String → Option Slot
  alertsContainer : List AlertCard

/-- The state when the script is loaded: `disasterMarkers = []`,
`charts = {}`, `currentFilter = 'all'`, nothing displayed, no timer. -/
def Page.initial (elements : String → Option Slot) : Page :=
  { disasterMarkers := [], charts := { disaster := none, activity := none },
    currentFilter := .string "all",
    notificationContainer := { classList := [], innerHTML := "" },
    timeouts := [], elements := elements, alertsContainer := [] }

/-- The marker part of `initializeMap`. -/
def initializeMap (time : String) (s : Page) : Page :=
  { s with disasterMarkers := addDisasterMarkers s.disasterMarkers (disasterData time) }

/-! ## Notifications -/

/-- The `colors` table of `showNotification`. -/
def notificationColors (type : String) : Value :=
  if type = "success" then .string "bg-green-500"
  else if type = "error" then .string "bg-red-500"
  else if type = "warning" then .string "bg-yellow-500"
  else if type = "info" then .string "bg-blue-500"
  else .undefined

/-- The `icons` table of `showNotification`. -/
def notificationIcons (type : String) : Value :=
  if type = "success" then .string "fa-check-circle"
  else if type = "error" then .string "fa-exclamation-circle"
  else if type = "warning" then .string "fa-exclamation-triangle"
  else if type = "info" then .string "fa-info-circle"
  else .undefined

/-- The markup `showNotification` assigns to `container.innerHTML`. -/
def notificationHTML (message type : String) : String :=
  "\n        <div class=\"flex items-center\">\n            <i class=\"fas "
    ++ (notificationIcons type).toJSString
    ++ " mr-3\"></i>\n            <span>" ++ message
    ++ "</span>\n        </div>\n    "

/-- Collaborator call `classList.add(c)`. -/
def classListAdd (classes : List String) (c : String) : List String :=
  if c ∈ classes then classes else classes ++ [c]

/-- Collaborator call `classList.remove(c)`. -/
def classListRemove (classes : List String) (c : String) : List String :=
  classes.filter (fun x => x != c)

/-- The function `showNotification(message, type)`: replaces the class name
and the markup of the container, adds the class `show`, and schedules the
removal of `show` 3000 ms later. -/
def showNotification (message type : String) (s : Page) : Page :=
  { s with
    notificationContainer :=
      { classList :=
          classListAdd
            ["notification", (notificationColors type).toJSString, "text-white",
             "p-4", "rounded-lg", "shadow-lg"] "show",
        innerHTML := notificationHTML message type },
    timeouts := s.timeouts ++ [{ delay := 3000 }] }

/-! ## Marker filter -/

/-- The body of the `forEach` callback of `filterDisasters`.  The callback
destructures its argument as `{ marker, markerType }`, so `markerType` is
the property named `markerType` of the handle. -/
def filterMarker (type : Value) (h : Handle) : Handle :=
  let markerType := h.getProp "markerType"
  if type.strictEq (.string "all") || markerType.strictEq type then
    { h with marker := (h.marker.setOpacity 1).setZIndexOffset 1000 }
  else
    { h with marker := (h.marker.setOpacity (3 / 10)).setZIndexOffset 0 }

/-- The message `filterDisasters` passes to `showNotification`. -/
def filterMessage (type : Value) : String :=
  "Showing " ++
    (if type.strictEq (.string "all") then "all disasters"
     else type.toJSString ++ " disasters")

/-- The function `filterDisasters(type)` of `frontend-script.js`. -/
def filterDisasters (type : Value) (s : Page) : Page :=
  showNotification (filterMessage type) "info"
    { s with
      currentFilter := type,
      disasterMarkers := s.disasterMarkers.map (filterMarker type) }

/-! ## The marker filter of `script.js` -/

namespace Script

/-- An element of `disasterMarkers` in `script.js`: the object literal
`{ marker, type: disaster.type }`. -/
structure Handle where
  marker : Marker
  type : String
  deriving DecidableEq, Repr

/-- Reading a string-valued property of a `script.js` handle by name: the
only one is `type`. -/
def Handle.getProp (h : Handle) (key : String) : Value :=
  if key = "type" then .string h.type else .undefined

/-- The `colors` table of `addDisasterMarker` in `script.js`. -/
def markerColors (type : String) : Value :=
  if type = "flood" then .string "#3b82f6"
  else if type = "earthquake" then .string "#ef4444"
  else if type = "fire" then .string "#f97316"
  else if type = "storm" then .string "#8b5cf6"
  else .undefined

/-- One entry of `disasterData` in `script.js`. -/
structure DisasterRecord where
  id : Nat
  type : String
  severity : String
  lat : ℚ
  lng : ℚ
  title : String
  description : String
  time : String
  affected : String
  deriving DecidableEq, Repr

/-- The `disasterData` constant of `script.js`. -/
def disasterData : List DisasterRecord :=
  [ { id := 1, type := "flood", severity := "high",
      lat := 407128 / 10000, lng := -740060 / 10000,
      title := "Flash Flood Warning",
      description := "Severe flooding in downtown area",
      time := "2024-01-15 14:30", affected := "2,500 people" },
    { id := 2, type := "earthquake", severity := "critical",
      lat := 340522 / 10000, lng := -1182437 / 10000,
      title := "Magnitude 6.2 Earthquake",
      description := "Major earthquake detected with aftershocks",
      time := "2024-01-15 12:15", affected := "15,000 people" },
    { id := 3, type := "fire", severity := "medium",
      lat := 377749 / 10000, lng := -1224194 / 10000,
      title := "Wildfire Alert",
      description := "Wildfire spreading in forest area",
      time := "2024-01-15 10:45", affected := "800 people" },
    { id := 4, type := "storm", severity := "high",
      lat := 418781 / 10000, lng := -876298 / 10000,
      title := "Severe Thunderstorm",
      description := "Heavy rain and strong winds expected",
      time := "2024-01-15 16:20", affected := "5,200 people" } ]

/-- The function `addDisasterMarker(disaster)` of `script.js`, as its
effect on `disasterMarkers`. -/
def addDisasterMarker (markers : List Handle) (disaster : DisasterRecord) :
    List Handle :=
  markers ++
    [{ marker :=
         { lat := disaster.lat, lng := disaster.lng, radius := 10,
           fillColor := markerColors disaster.type, color := "#fff",
           weight := 2, opacity := 1, fillOpacity := 8 / 10,
           zIndexOffset := 0 },
       type := disaster.type }]

/-- The marker loop of `initializeMap` in `script.js`. -/
def addDisasterMarkers (markers : List Handle) (data : List DisasterRecord) :
    List Handle :=
  data.foldl addDisasterMarker markers

/-- The body of the `forEach` callback of `filterDisasterMarkers`, which
destructures its argument as `{ marker, markerType }`. -/
def filterMarker (type : Value) (h : Handle) : Handle :=
  let markerType := h.getProp "markerType"
  if type.strictEq (.string "all") || markerType.strictEq type then
    { h with marker := h.marker.setOpacity 1 }
  else
    { h with marker := h.marker.setOpacity (2 / 10) }

/-- The function `filterDisasterMarkers(type)` of `script.js`, as its effect
on `disasterMarkers` (it touches nothing else). -/
def filterDisasterMarkers (type : Value) (markers : List Handle) :
    List Handle :=
  markers.map (filterMarker type)

end Script

/-! ## Time labels and random series -/

/-- Two decimal digits of `n` (for `n < 100`). -/
def pad2 (n : Nat) : String :=
  String.mk [Nat.digitChar (n / 10 % 10), Nat.digitChar (n % 10)]

/-- The string `new Date(ms).toLocaleTimeString('en-US', { hour: '2-digit',
minute: '2-digit' })` for a time of `ms` milliseconds (local time): a
12-hour clock reading such as `02:05 PM`.  The divisions round down. -/
def toLocaleTimeString (ms : ℤ) : String :=
  let minuteOfDay := ((ms / 60000) % 1440).toNat
  let h := minuteOfDay / 60
  let m := minuteOfDay % 60
  pad2 (if h % 12 = 0 then 12 else h % 12) ++ ":" ++ pad2 m ++ " "
    ++ (if h < 12 then "AM" else "PM")

/-- The function `generateTimeLabels(count)`, run at time `now`: the loop
counts `i` down from `count - 1` to `0` and pushes the label of the time
`now - i * 60000`. -/
def generateTimeLabels (now : ℤ) : Nat → List String
  | 0 => []
  | i + 1 => toLocaleTimeString (now - i * 60000) :: generateTimeLabels now i

/-- The function `generateRandomData(count, min, max)`: the `i`-th element
is `Math.floor(Math.random() * (max - min + 1)) + min`, from the `i`-th
draw. -/
def generateRandomData (rand : ℕ → ℚ) (count : Nat) (min max : ℤ) : List ℤ :=
  (List.range count).map (fun i => ⌊rand i * ((max - min + 1 : ℤ) : ℚ)⌋ + min)

/-- The function `initializeCharts`, run at time `now`: builds the doughnut
chart (`charts.disaster`) and the line chart (`charts.activity`). -/
def initializeCharts (now : ℤ) (rand : ℕ → ℚ) (s : Page) : Page :=
  { s with
    charts :=
      { disaster := some
          { kind := "doughnut",
            labels := ["Flood", "Earthquake", "Wildfire", "Storm", "Landslide"],
            data := [30, 25, 20, 20, 5], updates := 0 },
        activity := some
          { kind := "line", labels := generateTimeLabels now 12,
            data := generateRandomData rand 12 5 25, updates := 0 } } }

/-! ## Chart refresher -/

/-- The first block of `updateCharts` on `charts.activity`:
`data.shift(); data.push(newData); labels.shift(); labels.push(newLabel);
update('none')`.  `shift` on an empty array removes nothing. -/
def updateActivity (newData : ℤ) (newLabel : String) (c : Chart) : Chart :=
  { c with
    data := c.data.tail ++ [newData],
    labels := c.labels.tail ++ [newLabel],
    updates := c.updates + 1 }

/-- The second block of `updateCharts` on `charts.disaster`:
`data = data.map(() => Math.floor(Math.random() * 30) + 10); update()`.
`rand` is the sequence of draws of this block. -/
def updateDisaster (rand : ℕ → ℚ) (c : Chart) : Chart :=
  { c with
    data := c.data.enum.map (fun p => ⌊rand p.1 * 30⌋ + 10),
    updates := c.updates + 1 }

/-- The function `updateCharts`, run at time `now`.  The first draw is used
for the new sample of the activity chart when that chart exists; the
following draws resample the doughnut chart. -/
def updateCharts (now : ℤ) (rand : ℕ → ℚ) (s : Page) : Page :=
  match s.charts.activity with
  | some a =>
    { s with
      charts :=
        { activity :=
            some (updateActivity (⌊rand 0 * 20⌋ + 5) (toLocaleTimeString now) a),
          disaster := s.charts.disaster.map (updateDisaster (fun i => rand (i + 1))) } }
  | none =>
    { s with
      charts :=
        { activity := none,
          disaster := s.charts.disaster.map (updateDisaster rand) } }

/-- The time-series update as the specification words it: append the new
element, then drop the oldest one. -/
def appendThenDropOldest {α : Type} (xs : List α) (x : α) : List α :=
  (xs ++ [x]).tail

/-- A run of the chart timer: one `updateCharts` call per element of
`ticks`, each with the time and the draws of that tick. -/
def runChartTicks (ticks : List (ℤ × (ℕ → ℚ))) (s : Page) : Page :=
  ticks.foldl (fun p t => updateCharts t.1 t.2 p) s

/-- A handle with the two marker properties the filter sets blanked out:
what is left is everything the filter must not touch. -/
def Handle.unfiltered (h : Handle) : Handle :=
  { h with marker := { h.marker with opacity := 1, zIndexOffset := 0 } }

/-- The tags of the filter buttons: the five categories and `all`. -/
def filterTags : List String :=
  ["flood", "earthquake", "fire", "storm", "landslide", "all"]

/-! ## Measurement simulator -/

/-- The string `x.toFixed(1)`, kept as the number of tenths it denotes:
the sign is split off, and the magnitude is rounded to the nearest tenth,
upwards when two tenths are equally near. -/
structure Fixed1 where
  tenths : ℤ
  deriving DecidableEq, Repr

/-- The method `x.toFixed(1)`. -/
def toFixed1 (x : ℚ) : Fixed1 :=
  if x < 0 then ⟨-⌊-x * 10 + 1 / 2⌋⟩ else ⟨⌊x * 10 + 1 / 2⌋⟩

/-- The number a `toFixed(1)` string converts to when it is used in
arithmetic or in a comparison with a number. -/
def Fixed1.toNumber (f : Fixed1) : ℚ :=
  (f.tenths : ℚ) / 10

/-- The characters of a `toFixed(1)` string. -/
def Fixed1.text (f : Fixed1) : String :=
  (if f.tenths < 0 then "-" else "") ++ toString (f.tenths.natAbs / 10) ++ "."
    ++ toString (f.tenths.natAbs % 10)

/-- The object `measurements` of `updateMeasurements`. -/
structure Measurements where
  windSpeed : ℤ
  temperature : ℤ
  humidity : ℤ
  airQuality : ℤ
  seismic : Fixed1
  pressure : ℤ
  deriving DecidableEq, Repr

/-- The object literal at the top of `updateMeasurements`; the six draws
are taken in the order of the fields. -/
def measurements (rand : ℕ → ℚ) : Measurements :=
  { windSpeed := ⌊rand 0 * 80⌋ + 10,
    temperature := ⌊rand 1 * 35⌋ + 5,
    humidity := ⌊rand 2 * 60⌋ + 30,
    airQuality := ⌊rand 3 * 150⌋ + 20,
    seismic := toFixed1 (rand 4 * 4),
    pressure := ⌊rand 5 * 50⌋ + 980 }

/-- The assignment `document.getElementById(id).textContent = text`; `none`
when the element is missing (the assignment throws and the callback
stops). -/
def setTextContent (id text : String) (s : Page) : Option Page :=
  match s.elements id with
  | some e =>
    some { s with
           elements := fun k =>
             if k = id then some { e with textContent := text } else s.elements k }
  | none => none

/-- The assignment `document.getElementById(id).style.width = w + '%'`;
`none` when the element is missing. -/
def setWidth (id : String) (w : ℚ) (s : Page) : Option Page :=
  match s.elements id with
  | some e =>
    some { s with
           elements := fun k =>
             if k = id then some { e with width := some w } else s.elements k }
  | none => none

/-- The function `updateMeasurement(id, value, max, unit)`: both writes are
guarded by `if (element)` and `if (barElement)`. -/
def updateMeasurement (id : String) (value max : ℤ) (s : Page) : Page :=
  let s1 := (setTextContent id (toString value) s).getD s
  (setWidth (id ++ "Bar") (min ((value : ℚ) / max * 100) 100) s1).getD s1

/-- The function `updateMeasurements`; `none` when one of the elements it
writes without a guard is missing. -/
def updateMeasurements (rand : ℕ → ℚ) (s : Page) : Option Page := do
  let m := measurements rand
  let s := updateMeasurement "windSpeed" m.windSpeed 100 s
  let s ← setTextContent "maxWindSpeed" (toString (⌊rand 6 * 40⌋ + 60)) s
  let s := updateMeasurement "temperature" m.temperature 50 s
  let s ← setTextContent "tempRange"
    (toString (⌊rand 7 * 5⌋ + 10) ++ "-" ++ toString (⌊rand 8 * 10⌋ + 35)) s
  let s := updateMeasurement "humidity" m.humidity 100 s
  let s ← setTextContent "humidityStatus"
    (if m.humidity > 70 then "High" else if m.humidity > 40 then "Normal" else "Low") s
  let s := updateMeasurement "airQuality" m.airQuality 300 s
  let s ← setTextContent "airQualityLevel"
    (if m.airQuality > 150 then "Hazardous" else if m.airQuality > 100 then "Unhealthy"
     else if m.airQuality > 50 then "Moderate" else "Good") s
  let s ← setTextContent "seismic" m.seismic.text s
  let s ← setWidth "seismicBar" (m.seismic.toNumber / 6 * 100) s
  let s ← setTextContent "seismicStatus"
    (if m.seismic.toNumber > 4 then "High" else if m.seismic.toNumber > 2 then "Moderate"
     else "Low") s
  let s := updateMeasurement "pressure" m.pressure 1050 s
  setTextContent "pressureTrend"
    (if rand 9 > 1 / 2 then "Rising" else if rand 10 > 1 / 2 then "Falling" else "Stable") s

/-- The element map after `element.textContent = text` on the element `id`,
when it exists; a map without that element is left as it is. -/
def writeText (id text : String) (m : String → Option Slot) : String → Option Slot :=
  fun k => if k = id then (m id).map (fun e => { e with textContent := text }) else m k

/-- The element map after `element.style.width = w + '%'` on the element
`id`, when it exists. -/
def writeWidth (id : String) (w : ℚ) (m : String → Option Slot) : String → Option Slot :=
  fun k => if k = id then (m id).map (fun e => { e with width := some w }) else m k

/-- The elements `updateMeasurements` writes without a guard. -/
def measurementIds : List String :=
  ["maxWindSpeed", "tempRange", "humidityStatus", "airQualityLevel", "seismic",
   "seismicBar", "seismicStatus", "pressureTrend"]

/-- The element map after the eighteen writes of `updateMeasurements`, in
the order of the body, each applied when its element exists. -/
def measurementWrites (rand : ℕ → ℚ) (m : String → Option Slot) : String → Option Slot :=
  let v := measurements rand
  let m := writeText "windSpeed" (toString v.windSpeed) m
  let m := writeWidth "windSpeedBar" (min ((v.windSpeed : ℚ) / (100 : ℤ) * 100) 100) m
  let m := writeText "maxWindSpeed" (toString (⌊rand 6 * 40⌋ + 60)) m
  let m := writeText "temperature" (toString v.temperature) m
  let m := writeWidth "temperatureBar" (min ((v.temperature : ℚ) / (50 : ℤ) * 100) 100) m
  let m := writeText "tempRange"
    (toString (⌊rand 7 * 5⌋ + 10) ++ "-" ++ toString (⌊rand 8 * 10⌋ + 35)) m
  let m := writeText "humidity" (toString v.humidity) m
  let m := writeWidth "humidityBar" (min ((v.humidity : ℚ) / (100 : ℤ) * 100) 100) m
  let m := writeText "humidityStatus"
    (if v.humidity > 70 then "High" else if v.humidity > 40 then "Normal" else "Low") m
  let m := writeText "airQuality" (toString v.airQuality) m
  let m := writeWidth "airQualityBar" (min ((v.airQuality : ℚ) / (300 : ℤ) * 100) 100) m
  let m := writeText "airQualityLevel"
    (if v.airQuality > 150 then "Hazardous" else if v.airQuality > 100 then "Unhealthy"
     else if v.airQuality > 50 then "Moderate" else "Good") m
  let m := writeText "seismic" v.seismic.text m
  let m := writeWidth "seismicBar" (v.seismic.toNumber / 6 * 100) m
  let m := writeText "seismicStatus"
    (if v.seismic.toNumber > 4 then "High" else if v.seismic.toNumber > 2 then "Moderate"
     else "Low") m
  let m := writeText "pressure" (toString v.pressure) m
  let m := writeWidth "pressureBar" (min ((v.pressure : ℚ) / (1050 : ℤ) * 100) 100) m
  writeText "pressureTrend"
    (if rand 9 > 1 / 2 then "Rising" else if rand 10 > 1 / 2 then "Falling" else "Stable") m

/-- The text of the element `id`, when it exists. -/
def Page.text (s : Page) (id : String) : Option String :=
  (s.elements id).map (fun e => e.textContent)

/-- The percentage last written to `style.width` of the element `id`. -/
def Page.barWidth (s : Page) (id : String) : Option ℚ :=
  (s.elements id).bind (fun e => e.width)

/-! ## Statistics -/

/-- The function `updateStatistics`: seven draws, in the order of the fields
of `stats`, then seven unguarded text writes.  The text of `affectedPeople`
is `(n / 1000).toFixed(1) + 'K'`, with the quotient taken exactly. -/
def updateStatistics (rand : ℕ → ℚ) (s : Page) : Option Page := do
  let activeDisasters : ℤ := ⌊rand 0 * 8⌋ + 5
  let affectedPeople : ℤ := ⌊rand 1 * 20000⌋ + 10000
  let responseTime : ℤ := ⌊rand 2 * 180⌋ + 30
  let totalDisasters : ℤ := ⌊rand 3 * 50⌋ + 20
  let criticalAlerts : ℤ := ⌊rand 4 * 5⌋ + 1
  let activeRegions : ℤ := ⌊rand 5 * 10⌋ + 5
  let systemHealth : ℤ := ⌊rand 6 * 5⌋ + 95
  let s ← setTextContent "activeDisasters" (toString activeDisasters) s
  let s ← setTextContent "affectedPeople"
    ((toFixed1 ((affectedPeople : ℚ) / 1000)).text ++ "K") s
  let s ← setTextContent "responseTime" (toString responseTime ++ "s") s
  let s ← setTextContent "totalDisasters" (toString totalDisasters) s
  let s ← setTextContent "criticalAlerts" (toString criticalAlerts) s
  let s ← setTextContent "activeRegions" (toString activeRegions) s
  setTextContent "systemHealth" (toString systemHealth ++ "%") s

/-- The elements `updateStatistics` writes. -/
def statisticsIds : List String :=
  ["activeDisasters", "affectedPeople", "responseTime", "totalDisasters",
   "criticalAlerts", "activeRegions", "systemHealth"]

/-! ## Alert feed -/

/-- An indexed read `xs[i]` of an array of strings: `undefined` outside the
array. -/
def arrayAt (xs : List String) (i : ℤ) : Value :=
  if i < 0 then .undefined
  else match xs[i.toNat]? with
    | some x => .string x
    | none => .undefined

/-- The text an element holds after `element.textContent = v`: `undefined`
is converted to the empty string. -/
def Value.toTextContent : Value → String
  | .undefined => ""
  | .string s => s

/-- The constant `0.7` of the test `Math.random() > 0.7` in
`checkNewAlerts`. -/
def alertThreshold : ℚ := 7 / 10

/-- The array `alertTexts` of `checkNewAlerts`. -/
def alertTexts : List String :=
  ["New seismic activity detected in western region",
   "Severe weather warning issued for coastal areas",
   "Wildfire risk elevated due to high winds",
   "Flood warning in effect for river communities"]

/-- The function `checkNewAlerts`: the first draw decides whether a line is
published, the second selects the line; `none` when `#alertText` is
missing. -/
def checkNewAlerts (rand : ℕ → ℚ) (s : Page) : Option Page :=
  if rand 0 > alertThreshold then do
    let randomAlert := arrayAt alertTexts ⌊rand 1 * (alertTexts.length : ℚ)⌋
    let s ← setTextContent "alertText" randomAlert.toTextContent s
    some (showNotification "New disaster alert received!" "warning" s)
  else
    some s

/-- One entry of the array `alertTypes` of `loadAlerts`. -/
structure AlertRecord where
  type : String
  severity : String
  title : String
  location : String
  time : String
  description : String
  icon : String
  color : String
  deriving DecidableEq, Repr

/-- The array `alertTypes` of `loadAlerts`. -/
def alertTypes : List AlertRecord :=
  [ { type := "flood", severity := "critical", title := "Flash Flood Emergency",
      location := "Manhattan, NY", time := "2 minutes ago",
      description := "Immediate evacuation required for low-lying areas",
      icon := "fa-water", color := "red" },
    { type := "earthquake", severity := "high", title := "Earthquake Alert",
      location := "Los Angeles, CA", time := "15 minutes ago",
      description := "Magnitude 5.8 earthquake detected, aftershocks expected",
      icon := "fa-house-crack", color := "orange" },
    { type := "fire", severity := "medium", title := "Wildfire Warning",
      location := "Napa Valley, CA", time := "1 hour ago",
      description := "Wildfire spreading, monitor evacuation routes",
      icon := "fa-fire", color := "yellow" },
    { type := "storm", severity := "high", title := "Severe Thunderstorm",
      location := "Chicago, IL", time := "2 hours ago",
      description := "Heavy rain and damaging winds expected",
      icon := "fa-wind", color := "orange" },
    { type := "landslide", severity := "medium", title := "Landslide Risk",
      location := "Seattle, WA", time := "3 hours ago",
      description := "Heavy rain increases landslide risk in hilly areas",
      icon := "fa-mountain", color := "yellow" },
    { type := "flood", severity := "low", title := "Flood Watch",
      location := "Houston, TX", time := "6 hours ago",
      description := "Heavy rainfall may cause localized flooding",
      icon := "fa-droplet", color := "blue" } ]

/-- The method `toUpperCase`, on ASCII letters. -/
def toUpperCase (s : String) : String :=
  String.mk (s.data.map Char.toUpper)

/-- The function `createAlertCard(alert)`: the class name and the markup of
the card. -/
def createAlertCard (alert : AlertRecord) : AlertCard :=
  { className :=
      "bg-white rounded-xl shadow-lg p-6 border-l-4 border-" ++ alert.color
        ++ "-500 hover-lift fade-in",
    innerHTML :=
      "\n        <div class=\"flex items-start justify-between mb-4\">\n            <div class=\"flex items-center\">\n                <div class=\"w-10 h-10 bg-"
        ++ alert.color
        ++ "-100 rounded-lg flex items-center justify-center mr-3\">\n                    <i class=\"fas "
        ++ alert.icon ++ " text-" ++ alert.color
        ++ "-500\"></i>\n                </div>\n                <div>\n                    <h4 class=\"font-bold text-lg text-gray-800\">"
        ++ alert.title
        ++ "</h4>\n                    <p class=\"text-sm text-gray-600\">"
        ++ alert.location
        ++ "</p>\n                </div>\n            </div>\n            <span class=\"px-3 py-1 bg-"
        ++ alert.color ++ "-100 text-" ++ alert.color
        ++ "-800 rounded-full text-xs font-semibold\">\n                "
        ++ toUpperCase alert.severity
        ++ "\n            </span>\n        </div>\n        <p class=\"text-gray-700 mb-3\">"
        ++ alert.description
        ++ "</p>\n        <div class=\"flex justify-between items-center\">\n            <span class=\"text-sm text-gray-500\">\n                <i class=\"far fa-clock mr-1\"></i>"
        ++ alert.time
        ++ "\n            </span>\n            <button onclick=\"viewAlertDetails(\x27"
        ++ alert.type
        ++ "\x27)\" class=\"text-blue-600 hover:text-blue-800 text-sm font-semibold transition-colors\">\n                View Details →\n            </button>\n        </div>\n    " }

/-- The function `loadAlerts`: `alertsContainer.innerHTML = ''` empties the
container, then one card per entry of `alertTypes` is appended. -/
def loadAlerts (s : Page) : Page :=
  { s with
    alertsContainer :=
      alertTypes.foldl (fun cards alert => cards ++ [createAlertCard alert]) [] }

/-! ## Notification timers -/

/-- The callback `showNotification` hands to `setTimeout`:
`container.classList.remove('show')`. -/
def hideNotification (s : Page) : Page :=
  { s with
    notificationContainer :=
      { s.notificationContainer with
        classList := classListRemove s.notificationContainer.classList "show" } }

/-- Whether the notification is displayed: the container has the class
`show`. -/
def Page.notificationShown (s : Page) : Bool :=
  decide ("show" ∈ s.notificationContainer.classList)

/-- The passing of `d` ms during which no other event occurs: the pending
timeouts whose delay is at most `d` fire (they all run `hideNotification`),
the others come `d` ms nearer. -/
def elapse (d : Nat) (s : Page) : Page :=
  { (if s.timeouts.any (fun t => decide (t.delay ≤ d)) then hideNotification s else s) with
    timeouts :=
      (s.timeouts.filter (fun t => decide (d < t.delay))).map
        (fun t => { delay := t.delay - d }) }

/-! ## Periodic timers -/

/-- The callbacks `startRealTimeUpdates` registers with `setInterval`. -/
inductive Callback where
  | updateMeasurements
  | updateStatistics
  | updateCharts
  | checkNewAlerts
  deriving DecidableEq, Repr

/-- The function `startRealTimeUpdates`: the four `setInterval` calls, each
as its period in ms and its callback. -/
def startRealTimeUpdates : List (Nat × Callback) :=
  [(2000, .updateMeasurements), (5000, .updateStatistics), (10000, .updateCharts),
   (15000, .checkNewAlerts)]

/-- One firing of a periodic timer, at time `now` with the draws `rand`. -/
def Callback.run (c : Callback) (now : ℤ) (rand : ℕ → ℚ) (s : Page) : Option Page :=
  match c with
  | .updateMeasurements => Dashboard.updateMeasurements rand s
  | .updateStatistics => Dashboard.updateStatistics rand s
  | .updateCharts => some (Dashboard.updateCharts now rand s)
  | .checkNewAlerts => Dashboard.checkNewAlerts rand s

/-- A place the script can write: an element by id, the series of one of
the two charts, the notification container with its timeouts, the alert
cards, the marker handles, the current filter. -/
inductive Loc where
  | element (id : String)
  | activityChart
  | disasterChart
  | notification
  | alertCards
  | markers
  | currentFilter
  deriving DecidableEq, Repr

/-- The places a timer callback writes, read off its body. -/
def Callback.writeSet : Callback → List Loc
  | .updateMeasurements =>
    [.element "windSpeed", .element "windSpeedBar", .element "maxWindSpeed",
     .element "temperature", .element "temperatureBar", .element "tempRange",
     .element "humidity", .element "humidityBar", .element "humidityStatus",
     .element "airQuality", .element "airQualityBar", .element "airQualityLevel",
     .element "seismic", .element "seismicBar", .element "seismicStatus",
     .element "pressure", .element "pressureBar", .element "pressureTrend"]
  | .updateStatistics =>
    [.element "activeDisasters", .element "affectedPeople", .element "responseTime",
     .element "totalDisasters", .element "criticalAlerts", .element "activeRegions",
     .element "systemHealth"]
  | .updateCharts => [.activityChart, .disasterChart]
  | .checkNewAlerts => [.element "alertText", .notification]

/-- The pages `s` and `s'` hold the same content at every place outside
`W`. -/
def Page.agreeOutside (W : List Loc) (s s' : Page) : Prop :=
  (∀ id, Loc.element id ∉ W → s'.elements id = s.elements id) ∧
  (Loc.activityChart ∉ W → s'.charts.activity = s.charts.activity) ∧
  (Loc.disasterChart ∉ W → s'.charts.disaster = s.charts.disaster) ∧
  (Loc.notification ∉ W →
    s'.notificationContainer = s.notificationContainer ∧ s'.timeouts = s.timeouts) ∧
  (Loc.alertCards ∉ W → s'.alertsContainer = s.alertsContainer) ∧
  (Loc.markers ∉ W → s'.disasterMarkers = s.disasterMarkers) ∧
  (Loc.currentFilter ∉ W → s'.currentFilter = s.currentFilter)

/-! ## The page of `script.js`: notifications, alert feed -/

namespace Script

/-- A notification element that `showNotification` of `script.js` creates
and appends to `document.body`; `id` tells the elements apart. -/
structure Notification where
  id : Nat
  classList : List String
  innerHTML : String
  deriving DecidableEq, Repr

/-- What a pending `setTimeout` callback of `showNotification` does to the
notification element `id`: remove the class `translate-x-full` (slide in);
add it again and schedule the removal 300 ms later (slide out); remove the
element from the body. -/
inductive TimerAction where
  | slideIn (id : Nat)
  | slideOut (id : Nat)
  | removeChild (id : Nat)
  deriving DecidableEq, Repr

/-- A pending `setTimeout` callback: the time (ms) left and the action. -/
structure Timer where
  delay : Nat
  action : TimerAction
  deriving DecidableEq, Repr

/-- The state of the page of `script.js`: `disasterMarkers`, the text
elements by id, the cards of `#alertsContainer`, the notification elements
in the body, the pending timeouts, and the number of notification elements
created so far. -/
structure Page where
  disasterMarkers : List Handle
  elements : String → Option Slot
  alertsContainer : List AlertCard
  body : List Notification
  timers : List Timer
  created : Nat

/-- The state when `script.js` is loaded. -/
def Page.initial (elements : String → Option Slot) : Page :=
  { disasterMarkers := [], elements := elements, alertsContainer := [], body := [],
    timers := [], created := 0 }

/-- The `colors` table of `showNotification` in `script.js`. -/
def notificationColors (type : String) : Value :=
  if type = "success" then .string "bg-green-500"
  else if type = "error" then .string "bg-red-500"
  else if type = "warning" then .string "bg-yellow-500"
  else if type = "info" then .string "bg-blue-500"
  else .undefined

/-- Worker of `splitSpace`: `acc` holds the current piece, reversed. -/
def splitAux : List Char → List Char → List String
  | [], acc => [String.mk acc.reverse]
  | c :: cs, acc =>
    if c = ' ' then String.mk acc.reverse :: splitAux cs [] else splitAux cs (c :: acc)

/-- The method `split(' ')`. -/
def splitSpace (s : String) : List String :=
  splitAux s.data []

/-- The classes of the `className` a new notification element is given. -/
def notificationClasses : List String :=
  ["fixed", "top-20", "right-4", "z-50", "p-4", "rounded-lg", "shadow-lg", "transform",
   "translate-x-full", "transition-transform", "duration-300"]

/-- The markup `showNotification` of `script.js` assigns to the new
element. -/
def notificationHTML (message : String) : String :=
  "\n        <div class=\"flex items-center\">\n            <i class=\"fas fa-check-circle mr-2\"></i>\n            <span>"
    ++ message ++ "</span>\n        </div>\n    "

/-- The function `showNotification(message, type)` of `script.js`: a new
element is created with the color classes of `type` and `text-white` added,
appended to the body, and two timeouts are set, one of 100 ms to slide it
in and one of 3000 ms to slide it out.  `none` when `colors[type]` is
`undefined` (`split` throws). -/
def showNotification (message type : String) (s : Page) : Option Page :=
  match notificationColors type with
  | .undefined => none
  | .string c =>
    some { s with
      body := s.body ++
        [{ id := s.created,
           classList := (splitSpace c ++ ["text-white"]).foldl classListAdd notificationClasses,
           innerHTML := notificationHTML message }],
      timers := s.timers ++ [⟨100, .slideIn s.created⟩, ⟨3000, .slideOut s.created⟩],
      created := s.created + 1 }

/-- The effect of a timeout callback when it fires. -/
def fire (a : TimerAction) (s : Page) : Page :=
  match a with
  | .slideIn i =>
    { s with
      body := s.body.map (fun n =>
        if n.id = i then
          { n with classList := classListRemove n.classList "translate-x-full" }
        else n) }
  | .slideOut i =>
    { s with
      body := s.body.map (fun n =>
        if n.id = i then
          { n with classList := classListAdd n.classList "translate-x-full" }
        else n),
      timers := s.timers ++ [⟨300, .removeChild i⟩] }
  | .removeChild i => { s with body := s.body.filter (fun n => n.id != i) }

/-- The pending timeout that fires first: the least delay, the earliest set
among equal delays. -/
def nextTimer (timers : List Timer) : Option Timer :=
  timers.foldl
    (fun best t =>
      match best with
      | none => some t
      | some b => if t.delay < b.delay then some t else some b)
    none

/-- Worker of `elapse`: at most `fuel` timeouts fire. -/
def elapseAux : Nat → Nat → Page → Page
  | 0, d, s => { s with timers := s.timers.map (fun u => { u with delay := u.delay - d }) }
  | fuel + 1, d, s =>
    match nextTimer s.timers with
    | none => s
    | some t =>
      if t.delay ≤ d then
        elapseAux fuel (d - t.delay)
          (fire t.action
            { s with
              timers := (s.timers.erase t).map
                (fun u => { u with delay := u.delay - t.delay }) })
      else
        { s with timers := s.timers.map (fun u => { u with delay := u.delay - d }) }

/-- The passing of `d` ms during which no other event occurs: the timeouts
that come due fire in the order of their times.  Every pending timeout fires
at most once and sets at most one further timeout, hence the fuel. -/
def elapse (d : Nat) (s : Page) : Page :=
  elapseAux (2 * s.timers.length) d s

/-- A notification element is on screen when it has been slid in: it lacks
the class `translate-x-full`. -/
def Notification.onScreen (n : Notification) : Bool :=
  !(decide ("translate-x-full" ∈ n.classList))

/-- The assignment `document.getElementById(id).textContent = text` in
`script.js`; `none` when the element is missing. -/
def setTextContent (id text : String) (s : Page) : Option Page :=
  match s.elements id with
  | some e =>
    some { s with
           elements := fun k =>
             if k = id then some { e with textContent := text } else s.elements k }
  | none => none

/-- The constant `0.8` of the test `Math.random() > 0.8` in
`checkForNewAlerts`. -/
def alertThreshold : ℚ := 8 / 10

/-- The array `alertTexts` of `checkForNewAlerts`. -/
def alertTexts : List String :=
  ["New flood warning detected in coastal areas",
   "Seismic activity increased in western region",
   "Wildfire risk elevated due to high winds",
   "Storm system approaching eastern coastline"]

/-- The function `checkForNewAlerts` of `script.js`. -/
def checkForNewAlerts (rand : ℕ → ℚ) (s : Page) : Option Page :=
  let hasNewAlert := decide (rand 0 > alertThreshold)
  if hasNewAlert then do
    let randomAlert := arrayAt alertTexts ⌊rand 1 * (alertTexts.length : ℚ)⌋
    let s ← setTextContent "alertText" randomAlert.toTextContent s
    showNotification "New disaster alert received!" "warning" s
  else
    some s

/-- The array `alertCards` of `loadAlerts` in `script.js`. -/
def alertCards : List AlertRecord :=
  [ { type := "flood", severity := "critical", title := "Flash Flood Warning",
      location := "Manhattan, NY", time := "2 hours ago",
      description := "Immediate evacuation recommended for low-lying areas",
      icon := "fa-water", color := "red" },
    { type := "earthquake", severity := "high", title := "Earthquake Alert",
      location := "Los Angeles, CA", time := "4 hours ago",
      description := "Magnitude 5.8 earthquake detected, prepare for aftershocks",
      icon := "fa-house-crack", color := "orange" },
    { type := "fire", severity := "medium", title := "Wildfire Warning",
      location := "Napa Valley, CA", time := "6 hours ago",
      description := "Wildfire spreading, monitor evacuation routes",
      icon := "fa-fire", color := "yellow" },
    { type := "storm", severity := "high", title := "Hurricane Warning",
      location := "Miami, FL", time := "8 hours ago",
      description := "Category 3 hurricane approaching, secure property",
      icon := "fa-wind", color := "orange" },
    { type := "landslide", severity := "medium", title := "Landslide Risk",
      location := "Seattle, WA", time := "12 hours ago",
      description := "Heavy rain increases landslide risk in hilly areas",
      icon := "fa-mountain", color := "yellow" },
    { type := "flood", severity := "low", title := "Flood Watch",
      location := "Houston, TX", time := "1 day ago",
      description := "Heavy rainfall may cause localized flooding",
      icon := "fa-droplet", color := "blue" } ]

/-- The function `createAlertCard(alert)` of `script.js`. -/
def createAlertCard (alert : AlertRecord) : AlertCard :=
  { className :=
      "bg-white rounded-xl shadow-lg p-6 border-l-4 border-" ++ alert.color
        ++ "-500 hover:shadow-xl transition-shadow",
    innerHTML :=
      "\n        <div class=\"flex items-start justify-between mb-4\">\n            <div class=\"flex items-center\">\n                <i class=\"fas "
        ++ alert.icon ++ " text-2xl text-" ++ alert.color
        ++ "-500 mr-3\"></i>\n                <div>\n                    <h4 class=\"font-bold text-lg text-gray-800\">"
        ++ alert.title
        ++ "</h4>\n                    <p class=\"text-sm text-gray-600\">"
        ++ alert.location
        ++ "</p>\n                </div>\n            </div>\n            <span class=\"px-3 py-1 bg-"
        ++ alert.color ++ "-100 text-" ++ alert.color
        ++ "-800 rounded-full text-xs font-semibold\">\n                "
        ++ toUpperCase alert.severity
        ++ "\n            </span>\n        </div>\n        <p class=\"text-gray-700 mb-3\">"
        ++ alert.description
        ++ "</p>\n        <div class=\"flex justify-between items-center\">\n            <span class=\"text-sm text-gray-500\">\n                <i class=\"far fa-clock mr-1\"></i>"
        ++ alert.time
        ++ "\n            </span>\n            <button class=\"text-blue-600 hover:text-blue-800 text-sm font-semibold\">\n                View Details →\n            </button>\n        </div>\n    " }

/-- The function `loadAlerts` of `script.js`. -/
def loadAlerts (s : Page) : Page :=
  { s with
    alertsContainer :=
      alertCards.foldl (fun cards alert => cards ++ [createAlertCard alert]) [] }

end Script

/-! ## Theorems -/

theorem strictEq_undefined_string (c : String) :
    Value.strictEq .undefined (.string c) = false := rfl

theorem strictEq_string_all (c : String) (hc : c ≠ "all") :
    Value.strictEq (.string c) (.string "all") = false := by
  simp [Value.strictEq, hc]

theorem getProp_markerType (h : Handle) : h.getProp "markerType" = .undefined := by
  simp [Handle.getProp]

theorem script_getProp_markerType (h : Script.Handle) :
    h.getProp "markerType" = .undefined := by
  simp [Script.Handle.getProp]

theorem filterMarker_string (c : String) (hc : c ≠ "all") (h : Handle) :
    filterMarker (.string c) h =
      { h with marker := (h.marker.setOpacity (3 / 10)).setZIndexOffset 0 } := by
  simp [filterMarker, getProp_markerType, strictEq_undefined_string,
    strictEq_string_all c hc]

theorem script_filterMarker_string (c : String) (hc : c ≠ "all") (h : Script.Handle) :
    Script.filterMarker (.string c) h =
      { h with marker := h.marker.setOpacity (2 / 10) } := by
  simp [Script.filterMarker, script_getProp_markerType, strictEq_undefined_string,
    strictEq_string_all c hc]

theorem filterDisasters_markers (type : Value) (s : Page) :
    (filterDisasters type s).disasterMarkers = s.disasterMarkers.map (filterMarker type) :=
  rfl

theorem filterMarker_eq (type : Value) (h : Handle) :
    filterMarker type h =
      if (type.strictEq (.string "all") || Value.strictEq .undefined type) = true then
        { h with marker := (h.marker.setOpacity 1).setZIndexOffset 1000 }
      else
        { h with marker := (h.marker.setOpacity (3 / 10)).setZIndexOffset 0 } := by
  simp [filterMarker, getProp_markerType]

/-- With the tag `all` every handle is set to opacity 1 and stacking offset
1000. -/
theorem filterDisasters_all (s : Page) :
    ∀ h ∈ (filterDisasters (.string "all") s).disasterMarkers,
      h.marker.opacity = 1 ∧ h.marker.zIndexOffset = 1000 := by
  intro h hmem
  rw [filterDisasters_markers, List.mem_map] at hmem
  obtain ⟨h0, _, rfl⟩ := hmem
  rw [filterMarker_eq]
  exact ⟨rfl, rfl⟩

/-- C1 (the code at the failing input): on the five-record fixture,
`filterDisasters("fire")` leaves every handle, the fire-tagged one included,
at opacity 0.3 and stacking offset 0; no handle is at full opacity. -/
theorem filterDisasters_fire_fixture (time : String) (elements : String → Option Slot) :
    ((filterDisasters (.string "fire")
        (initializeMap time (Page.initial elements))).disasterMarkers.map
      (fun h => (h.type, h.marker.opacity, h.marker.zIndexOffset)))
      = [("flood", 3 / 10, 0), ("earthquake", 3 / 10, 0), ("fire", 3 / 10, 0),
         ("storm", 3 / 10, 0), ("landslide", 3 / 10, 0)] := by
  simp [filterDisasters_markers, initializeMap, Page.initial, addDisasterMarkers,
    addDisasterMarker, disasterData, filterMarker_string, Marker.setOpacity,
    Marker.setZIndexOffset]

/-- The fixture page: the state after `initializeMap` on a page without
text elements. -/
theorem fixture_markers (time : String) (elements : String → Option Slot) :
    (initializeMap time (Page.initial elements)).disasterMarkers.map (fun h => h.type)
      = ["flood", "earthquake", "fire", "storm", "landslide"] := by
  simp [initializeMap, Page.initial, addDisasterMarkers, addDisasterMarker, disasterData]

/-- C2: for a string tag `c` other than `all`, `filterDisasters(c)` keeps
every handle, in order, and sets each to opacity 0.3 and stacking offset 0,
and `filterDisasterMarkers(c)` of `script.js` keeps every handle and sets
each to opacity 0.2; so every handle whose category differs from `c` is
still there and is dimmed, and for a tag outside the fixed set every handle
is at reduced opacity. -/
theorem filter_nonmatching_reduced (s : Page) (ms : List Script.Handle) (c : String)
    (hc : c ≠ "all") :
    (filterDisasters (.string c) s).disasterMarkers
      = s.disasterMarkers.map
          (fun h => { h with marker := (h.marker.setOpacity (3 / 10)).setZIndexOffset 0 }) ∧
    Script.filterDisasterMarkers (.string c) ms
      = ms.map (fun h => { h with marker := h.marker.setOpacity (2 / 10) }) ∧
    (filterDisasters (.string c) s).disasterMarkers.length = s.disasterMarkers.length ∧
    (filterDisasters (.string c) s).disasterMarkers.map (fun h => h.type)
      = s.disasterMarkers.map (fun h => h.type) ∧
    (Script.filterDisasterMarkers (.string c) ms).length = ms.length ∧
    (Script.filterDisasterMarkers (.string c) ms).map (fun h => h.type)
      = ms.map (fun h => h.type) ∧
    (∀ h ∈ s.disasterMarkers, h.type ≠ c →
      ∃ h' ∈ (filterDisasters (.string c) s).disasterMarkers,
        h'.type = h.type ∧ h'.severity = h.severity ∧
        h'.marker.opacity = 3 / 10 ∧ h'.marker.zIndexOffset = 0) ∧
    (∀ h ∈ ms, h.type ≠ c →
      ∃ h' ∈ Script.filterDisasterMarkers (.string c) ms,
        h'.type = h.type ∧ h'.marker.opacity = 2 / 10) ∧
    (∀ h ∈ (filterDisasters (.string c) s).disasterMarkers,
        h.type ≠ c → h.marker.opacity = 3 / 10 ∧ h.marker.zIndexOffset = 0) ∧
    (∀ h ∈ Script.filterDisasterMarkers (.string c) ms,
        h.type ≠ c → h.marker.opacity = 2 / 10) ∧
    (c ∉ filterTags →
      (∀ h ∈ (filterDisasters (.string c) s).disasterMarkers,
          h.marker.opacity = 3 / 10 ∧ h.marker.zIndexOffset = 0) ∧
      (∀ h ∈ Script.filterDisasterMarkers (.string c) ms, h.marker.opacity = 2 / 10)) := by
  have em : (filterDisasters (.string c) s).disasterMarkers
      = s.disasterMarkers.map
          (fun h => { h with marker := (h.marker.setOpacity (3 / 10)).setZIndexOffset 0 }) := by
    rw [filterDisasters_markers]
    exact List.map_congr_left (fun h _ => filterMarker_string c hc h)
  have es : Script.filterDisasterMarkers (.string c) ms
      = ms.map (fun h => { h with marker := h.marker.setOpacity (2 / 10) }) := by
    rw [Script.filterDisasterMarkers]
    exact List.map_congr_left (fun h _ => script_filterMarker_string c hc h)
  have hf : ∀ h ∈ (filterDisasters (.string c) s).disasterMarkers,
      h.marker.opacity = 3 / 10 ∧ h.marker.zIndexOffset = 0 := by
    intro h hmem
    rw [em, List.mem_map] at hmem
    obtain ⟨h0, _, rfl⟩ := hmem
    exact ⟨rfl, rfl⟩
  have hs : ∀ h ∈ Script.filterDisasterMarkers (.string c) ms,
      h.marker.opacity = 2 / 10 := by
    intro h hmem
    rw [es, List.mem_map] at hmem
    obtain ⟨h0, _, rfl⟩ := hmem
    rfl
  refine ⟨em, es, ?_, ?_, ?_, ?_, ?_, ?_, fun h hmem _ => hf h hmem,
    fun h hmem _ => hs h hmem, fun _ => ⟨hf, hs⟩⟩
  · rw [em, List.length_map]
  · rw [em, List.map_map]
    rfl
  · rw [es, List.length_map]
  · rw [es, List.map_map]
    rfl
  · intro h hmem _
    refine ⟨{ h with marker := (h.marker.setOpacity (3 / 10)).setZIndexOffset 0 }, ?_,
      rfl, rfl, rfl, rfl⟩
    rw [em]
    exact List.mem_map_of_mem _ hmem
  · intro h hmem _
    refine ⟨{ h with marker := h.marker.setOpacity (2 / 10) }, ?_, rfl, rfl⟩
    rw [es]
    exact List.mem_map_of_mem _ hmem

theorem filter_nonmatching_reduced_witness :
    "tsunami" ≠ "all" ∧
    ((filterDisasters (.string "tsunami") (initializeMap "t" (Page.initial (fun _ => none)))).disasterMarkers
      = (initializeMap "t" (Page.initial (fun _ => none))).disasterMarkers.map
          (fun h => { h with marker := (h.marker.setOpacity (3 / 10)).setZIndexOffset 0 }) ∧
    Script.filterDisasterMarkers (.string "tsunami") (Script.addDisasterMarkers [] Script.disasterData)
      = (Script.addDisasterMarkers [] Script.disasterData).map (fun h => { h with marker := h.marker.setOpacity (2 / 10) }) ∧
    (filterDisasters (.string "tsunami") (initializeMap "t" (Page.initial (fun _ => none)))).disasterMarkers.length = (initializeMap "t" (Page.initial (fun _ => none))).disasterMarkers.length ∧
    (filterDisasters (.string "tsunami") (initializeMap "t" (Page.initial (fun _ => none)))).disasterMarkers.map (fun h => h.type)
      = (initializeMap "t" (Page.initial (fun _ => none))).disasterMarkers.map (fun h => h.type) ∧
    (Script.filterDisasterMarkers (.string "tsunami") (Script.addDisasterMarkers [] Script.disasterData)).length = (Script.addDisasterMarkers [] Script.disasterData).length ∧
    (Script.filterDisasterMarkers (.string "tsunami") (Script.addDisasterMarkers [] Script.disasterData)).map (fun h => h.type)
      = (Script.addDisasterMarkers [] Script.disasterData).map (fun h => h.type) ∧
    (∀ h ∈ (initializeMap "t" (Page.initial (fun _ => none))).disasterMarkers, h.type ≠ "tsunami" →
      ∃ h' ∈ (filterDisasters (.string "tsunami") (initializeMap "t" (Page.initial (fun _ => none)))).disasterMarkers,
        h'.type = h.type ∧ h'.severity = h.severity ∧
        h'.marker.opacity = 3 / 10 ∧ h'.marker.zIndexOffset = 0) ∧
    (∀ h ∈ (Script.addDisasterMarkers [] Script.disasterData), h.type ≠ "tsunami" →
      ∃ h' ∈ Script.filterDisasterMarkers (.string "tsunami") (Script.addDisasterMarkers [] Script.disasterData),
        h'.type = h.type ∧ h'.marker.opacity = 2 / 10) ∧
    (∀ h ∈ (filterDisasters (.string "tsunami") (initializeMap "t" (Page.initial (fun _ => none)))).disasterMarkers,
        h.type ≠ "tsunami" → h.marker.opacity = 3 / 10 ∧ h.marker.zIndexOffset = 0) ∧
    (∀ h ∈ Script.filterDisasterMarkers (.string "tsunami") (Script.addDisasterMarkers [] Script.disasterData),
        h.type ≠ "tsunami" → h.marker.opacity = 2 / 10) ∧
    ("tsunami" ∉ filterTags →
      (∀ h ∈ (filterDisasters (.string "tsunami") (initializeMap "t" (Page.initial (fun _ => none)))).disasterMarkers,
          h.marker.opacity = 3 / 10 ∧ h.marker.zIndexOffset = 0) ∧
      (∀ h ∈ Script.filterDisasterMarkers (.string "tsunami") (Script.addDisasterMarkers [] Script.disasterData), h.marker.opacity = 2 / 10))) :=
  ⟨by decide, filter_nonmatching_reduced _ _ "tsunami" (by decide)⟩

theorem filterMarker_idem (type : Value) (h : Handle) :
    filterMarker type (filterMarker type h) = filterMarker type h := by
  rw [filterMarker_eq type h, filterMarker_eq]
  by_cases hb : (type.strictEq (.string "all") || Value.strictEq .undefined type) = true
  · simp only [hb, if_true]
    rfl
  · simp only [hb, if_false]
    rfl

/-- C3: `filterDisasters` is idempotent: for every page and every tag
(a known or unknown string, or `undefined`), a second `filterDisasters(c)`
leaves every handle (so every marker opacity and stacking offset),
`currentFilter` and the notification container exactly as the first call
left them. -/
theorem filterDisasters_idempotent (type : Value) (s : Page) :
    (filterDisasters type (filterDisasters type s)).disasterMarkers
        = (filterDisasters type s).disasterMarkers ∧
    (filterDisasters type (filterDisasters type s)).currentFilter
        = (filterDisasters type s).currentFilter ∧
    (filterDisasters type (filterDisasters type s)).notificationContainer
        = (filterDisasters type s).notificationContainer := by
  refine ⟨?_, rfl, rfl⟩
  simp only [filterDisasters_markers, List.map_map]
  apply List.map_congr_left
  intro h _
  exact filterMarker_idem type h

theorem filterMarker_unfiltered (type : Value) (h : Handle) :
    (filterMarker type h).unfiltered = h.unfiltered := by
  rw [filterMarker_eq]
  split <;> rfl

theorem filterMarker_type (type : Value) (h : Handle) :
    (filterMarker type h).type = h.type := by
  rw [filterMarker_eq]
  split <;> rfl

theorem filterMarker_severity (type : Value) (h : Handle) :
    (filterMarker type h).severity = h.severity := by
  rw [filterMarker_eq]
  split <;> rfl

/-- C4: `filterDisasters(c)` keeps the number and order of the handles, the
category and the severity of each, and every marker property other than
opacity and stacking offset; it leaves the charts (so the doughnut chart,
whose labels after `initializeCharts` are Flood, Earthquake, Wildfire,
Storm, Landslide), the text elements and the alert cards unchanged. -/
theorem filterDisasters_frame (type : Value) (s : Page) :
    (filterDisasters type s).disasterMarkers.length = s.disasterMarkers.length ∧
    (filterDisasters type s).disasterMarkers.map (fun h => h.type)
        = s.disasterMarkers.map (fun h => h.type) ∧
    (filterDisasters type s).disasterMarkers.map (fun h => h.severity)
        = s.disasterMarkers.map (fun h => h.severity) ∧
    (filterDisasters type s).disasterMarkers.map Handle.unfiltered
        = s.disasterMarkers.map Handle.unfiltered ∧
    (filterDisasters type s).charts = s.charts ∧
    (filterDisasters type s).elements = s.elements ∧
    (filterDisasters type s).alertsContainer = s.alertsContainer ∧
    (∀ now rand,
      (filterDisasters type (initializeCharts now rand s)).charts.disaster.map
          (fun c => (c.labels, c.data))
        = some (["Flood", "Earthquake", "Wildfire", "Storm", "Landslide"],
                [30, 25, 20, 20, 5])) := by
  refine ⟨?_, ?_, ?_, ?_, rfl, rfl, rfl, fun _ _ => rfl⟩
  · simp [filterDisasters_markers]
  · simp only [filterDisasters_markers, List.map_map]
    exact List.map_congr_left (fun h _ => filterMarker_type type h)
  · simp only [filterDisasters_markers, List.map_map]
    exact List.map_congr_left (fun h _ => filterMarker_severity type h)
  · simp only [filterDisasters_markers, List.map_map]
    exact List.map_congr_left (fun h _ => filterMarker_unfiltered type h)

/-! ### Chart refresher -/

theorem floor_draw_bounds (r : ℚ) (k : ℤ) (hk : 0 < k) (h0 : 0 ≤ r) (h1 : r < 1) :
    0 ≤ ⌊r * (k : ℚ)⌋ ∧ ⌊r * (k : ℚ)⌋ < k := by
  have hkq : (0 : ℚ) < (k : ℚ) := by exact_mod_cast hk
  constructor
  · exact Int.floor_nonneg.mpr (mul_nonneg h0 hkq.le)
  · rw [Int.floor_lt]
    nlinarith

theorem length_generateTimeLabels (now : ℤ) (count : Nat) :
    (generateTimeLabels now count).length = count := by
  induction count with
  | zero => rfl
  | succ n ih => simp [generateTimeLabels, ih]

theorem length_generateRandomData (rand : ℕ → ℚ) (count : Nat) (min max : ℤ) :
    (generateRandomData rand count min max).length = count := by
  simp [generateRandomData]

theorem length_tail_append_singleton {α : Type} (xs : List α) (x : α) (h : xs ≠ []) :
    (xs.tail ++ [x]).length = xs.length := by
  cases xs with
  | nil => exact absurd rfl h
  | cons y ys => simp

theorem updateCharts_activity (now : ℤ) (rand : ℕ → ℚ) (s : Page) :
    (updateCharts now rand s).charts.activity =
      s.charts.activity.map
        (updateActivity (⌊rand 0 * 20⌋ + 5) (toLocaleTimeString now)) := by
  unfold updateCharts
  cases h : s.charts.activity <;> rfl

theorem updateCharts_disaster (now : ℤ) (rand : ℕ → ℚ) (s : Page) :
    ∃ rand', (∀ i, ∃ j, rand' i = rand j) ∧
      (updateCharts now rand s).charts.disaster =
        s.charts.disaster.map (updateDisaster rand') := by
  unfold updateCharts
  cases h : s.charts.activity
  · exact ⟨rand, fun i => ⟨i, rfl⟩, rfl⟩
  · exact ⟨fun i => rand (i + 1), fun i => ⟨i + 1, rfl⟩, rfl⟩

theorem window_step (now : ℤ) (rand : ℕ → ℚ) (s : Page)
    (h : s.charts.activity.map (fun a => (a.labels.length, a.data.length)) = some (12, 12)) :
    (updateCharts now rand s).charts.activity.map
        (fun a => (a.labels.length, a.data.length)) = some (12, 12) := by
  rw [updateCharts_activity]
  cases ha : s.charts.activity with
  | none => simp [ha] at h
  | some a =>
    simp only [ha, Option.map_some', Option.some.injEq, Prod.mk.injEq] at h
    have hl : a.labels ≠ [] := by
      intro h0
      simp [h0] at h
    have hd : a.data ≠ [] := by
      intro h0
      simp [h0] at h
    simp only [Option.map_some', updateActivity, Option.some.injEq, Prod.mk.injEq]
    rw [length_tail_append_singleton _ _ hl, length_tail_append_singleton _ _ hd]
    exact h

theorem window_run (ticks : List (ℤ × (ℕ → ℚ))) (s : Page)
    (h : s.charts.activity.map (fun a => (a.labels.length, a.data.length)) = some (12, 12)) :
    (runChartTicks ticks s).charts.activity.map
        (fun a => (a.labels.length, a.data.length)) = some (12, 12) := by
  induction ticks generalizing s with
  | nil => exact h
  | cons t ts ih =>
    simp only [runChartTicks, List.foldl_cons]
    exact ih _ (window_step t.1 t.2 s h)

theorem window_initial (now : ℤ) (rand : ℕ → ℚ) (s : Page) :
    (initializeCharts now rand s).charts.activity.map
        (fun a => (a.labels.length, a.data.length)) = some (12, 12) := by
  simp [initializeCharts, length_generateTimeLabels, length_generateRandomData]

/-- C5: sliding-window invariant.  After `initializeCharts` and any run of
`updateCharts` ticks the activity chart has 12 labels and 12 values, and one
more tick leaves both lengths as they were before it. -/
theorem activity_window_invariant (s0 : Page) (now0 : ℤ) (rand0 : ℕ → ℚ)
    (ticks : List (ℤ × (ℕ → ℚ))) (now : ℤ) (rand : ℕ → ℚ) :
    (runChartTicks ticks (initializeCharts now0 rand0 s0)).charts.activity.map
        (fun a => (a.labels.length, a.data.length)) = some (12, 12) ∧
    (updateCharts now rand
        (runChartTicks ticks (initializeCharts now0 rand0 s0))).charts.activity.map
        (fun a => (a.labels.length, a.data.length))
      = (runChartTicks ticks (initializeCharts now0 rand0 s0)).charts.activity.map
        (fun a => (a.labels.length, a.data.length)) := by
  have h := window_run ticks _ (window_initial now0 rand0 s0)
  exact ⟨h, (window_step now rand _ h).trans h.symm⟩

/-- C6: on a non-empty activity series one `updateCharts` tick at time `now`
with first draw `rand 0` gives values = old values without their first
element, then `⌊rand 0 * 20⌋ + 5`, and labels = old labels without their
first element, then the label of `now`; both equal the result of appending
first and dropping the oldest element afterwards, and the newest label is
the label of `now`. -/
theorem activity_tick_fifo (s : Page) (a : Chart) (now : ℤ) (rand : ℕ → ℚ)
    (ha : s.charts.activity = some a) (hd : a.data ≠ []) (hl : a.labels ≠ []) :
    ∃ a', (updateCharts now rand s).charts.activity = some a' ∧
      a'.data = a.data.tail ++ [⌊rand 0 * 20⌋ + 5] ∧
      a'.labels = a.labels.tail ++ [toLocaleTimeString now] ∧
      a'.data = appendThenDropOldest a.data (⌊rand 0 * 20⌋ + 5) ∧
      a'.labels = appendThenDropOldest a.labels (toLocaleTimeString now) ∧
      a'.labels.getLast? = some (toLocaleTimeString now) := by
  refine ⟨updateActivity (⌊rand 0 * 20⌋ + 5) (toLocaleTimeString now) a, ?_, rfl, rfl,
    ?_, ?_, ?_⟩
  · rw [updateCharts_activity, ha]
    rfl
  · cases hda : a.data with
    | nil => exact absurd hda hd
    | cons x xs => simp [updateActivity, appendThenDropOldest, hda]
  · cases hla : a.labels with
    | nil => exact absurd hla hl
    | cons x xs => simp [updateActivity, appendThenDropOldest, hla]
  · simp [updateActivity]

theorem activity_tick_fifo_witness :
    ∃ a', (updateCharts 50700000 (fun _ => 1 / 2)
        { Page.initial (fun _ => none) with
          charts := { disaster := none,
                      activity := some ⟨"line", ["02:03 PM", "02:04 PM"], [7, 9], 0⟩ } }
        ).charts.activity = some a' ∧
      a'.data = [7, 9].tail ++ [⌊(1 / 2 : ℚ) * 20⌋ + 5] ∧
      a'.labels = ["02:03 PM", "02:04 PM"].tail ++ [toLocaleTimeString 50700000] ∧
      a'.data = appendThenDropOldest [7, 9] (⌊(1 / 2 : ℚ) * 20⌋ + 5) ∧
      a'.labels = appendThenDropOldest ["02:03 PM", "02:04 PM"]
        (toLocaleTimeString 50700000) ∧
      a'.labels.getLast? = some (toLocaleTimeString 50700000) :=
  activity_tick_fifo
    { Page.initial (fun _ => none) with
      charts := { disaster := none,
                  activity := some ⟨"line", ["02:03 PM", "02:04 PM"], [7, 9], 0⟩ } }
    ⟨"line", ["02:03 PM", "02:04 PM"], [7, 9], 0⟩ 50700000 (fun _ => 1 / 2) rfl
    (by decide) (by decide)

/-- C7: an `updateCharts` tick leaves the label array of the doughnut chart
unchanged and its value array at the same length, whatever the state of the
chart. -/
theorem distribution_tick_frame (s : Page) (now : ℤ) (rand : ℕ → ℚ) :
    (updateCharts now rand s).charts.disaster.map (fun c => c.labels)
        = s.charts.disaster.map (fun c => c.labels) ∧
    (updateCharts now rand s).charts.disaster.map (fun c => c.data.length)
        = s.charts.disaster.map (fun c => c.data.length) := by
  obtain ⟨rand', _, h⟩ := updateCharts_disaster now rand s
  rw [h]
  cases s.charts.disaster <;> simp [updateDisaster]

/-- C8: after an `updateCharts` tick whose draws all lie in [0,1), every
value of the doughnut chart is `⌊r * 30⌋ + 10` for one of the draws `r`, an
integer between 10 and 39. -/
theorem distribution_tick_range (s : Page) (now : ℤ) (rand : ℕ → ℚ)
    (hr : ∀ i, 0 ≤ rand i ∧ rand i < 1) (d : Chart)
    (hd : (updateCharts now rand s).charts.disaster = some d) :
    ∀ v ∈ d.data, 10 ≤ v ∧ v ≤ 39 ∧ ∃ i, v = ⌊rand i * 30⌋ + 10 := by
  obtain ⟨rand', hsub, h⟩ := updateCharts_disaster now rand s
  rw [h] at hd
  cases hc : s.charts.disaster with
  | none => simp [hc] at hd
  | some c =>
    simp only [hc, Option.map_some', Option.some.injEq] at hd
    subst hd
    intro v hv
    simp only [updateDisaster, List.mem_map] at hv
    obtain ⟨p, _, rfl⟩ := hv
    obtain ⟨j, hj⟩ := hsub p.1
    rw [hj]
    have hb := floor_draw_bounds (rand j) 30 (by norm_num) (hr j).1 (hr j).2
    have hb1 := hb.1
    have hb2 := hb.2
    push_cast at hb1 hb2
    exact ⟨by omega, by omega, j, rfl⟩

theorem distribution_tick_range_witness :
    (∀ i : ℕ, 0 ≤ (fun _ : ℕ => (1 / 2 : ℚ)) i ∧ (fun _ : ℕ => (1 / 2 : ℚ)) i < 1) ∧
    (∀ v ∈ ([25, 25, 25, 25, 25] : List ℤ),
      10 ≤ v ∧ v ≤ 39 ∧ ∃ i, v = ⌊(fun _ : ℕ => (1 / 2 : ℚ)) i * 30⌋ + 10) :=
  ⟨fun _ => by norm_num,
   distribution_tick_range
     (initializeCharts 0 (fun _ => 0) (Page.initial (fun _ => none))) 50700000
     (fun _ => 1 / 2) (fun _ => by norm_num)
     ⟨"doughnut", ["Flood", "Earthquake", "Wildfire", "Storm", "Landslide"],
      [25, 25, 25, 25, 25], 1⟩
     (by
       simp [updateCharts, initializeCharts, updateDisaster, Page.initial, List.enum,
         List.enumFrom]
       norm_num)⟩

/-! ### Measurement simulator -/

/-- C9: with every draw in [0,1), the wind speed `⌊r * 80⌋ + 10` generated
by `updateMeasurements` is an integer in [10, 90] and the pressure
`⌊r * 50⌋ + 980` an integer in [980, 1030]. -/
theorem measurement_ranges (rand : ℕ → ℚ) (hr : ∀ i, 0 ≤ rand i ∧ rand i < 1) :
    (measurements rand).windSpeed = ⌊rand 0 * 80⌋ + 10 ∧
    10 ≤ (measurements rand).windSpeed ∧ (measurements rand).windSpeed ≤ 90 ∧
    (measurements rand).pressure = ⌊rand 5 * 50⌋ + 980 ∧
    980 ≤ (measurements rand).pressure ∧ (measurements rand).pressure ≤ 1030 := by
  have hw := floor_draw_bounds (rand 0) 80 (by norm_num) (hr 0).1 (hr 0).2
  have hp := floor_draw_bounds (rand 5) 50 (by norm_num) (hr 5).1 (hr 5).2
  have hw1 := hw.1
  have hw2 := hw.2
  have hp1 := hp.1
  have hp2 := hp.2
  push_cast at hw1 hw2 hp1 hp2
  have ew : (measurements rand).windSpeed = ⌊rand 0 * 80⌋ + 10 := rfl
  have ep : (measurements rand).pressure = ⌊rand 5 * 50⌋ + 980 := rfl
  rw [ew, ep]
  exact ⟨rfl, by omega, by omega, rfl, by omega, by omega⟩

theorem measurement_ranges_witness :
    (∀ i : ℕ, 0 ≤ (fun _ : ℕ => (1 / 2 : ℚ)) i ∧ (fun _ : ℕ => (1 / 2 : ℚ)) i < 1) ∧
    ((measurements (fun _ => 1 / 2)).windSpeed = ⌊(fun _ : ℕ => (1 / 2 : ℚ)) 0 * 80⌋ + 10 ∧
     10 ≤ (measurements (fun _ => 1 / 2)).windSpeed ∧
     (measurements (fun _ => 1 / 2)).windSpeed ≤ 90 ∧
     (measurements (fun _ => 1 / 2)).pressure = ⌊(fun _ : ℕ => (1 / 2 : ℚ)) 5 * 50⌋ + 980 ∧
     980 ≤ (measurements (fun _ => 1 / 2)).pressure ∧
     (measurements (fun _ => 1 / 2)).pressure ≤ 1030) :=
  ⟨fun _ => by norm_num, measurement_ranges (fun _ => 1 / 2) (fun _ => by norm_num)⟩

theorem toFixed1_nonneg (x : ℚ) (hx : 0 ≤ x) :
    (toFixed1 x).tenths = ⌊x * 10 + 1 / 2⌋ := by
  simp [toFixed1, not_lt.mpr hx]

/-- C10: for a draw `r` in [0,1) the seismic magnitude generated by
`updateMeasurements`, `(r * 4).toFixed(1)`, denotes a number of tenths
between 0.0 and 4.0 that is within 0.05 of `r * 4`; it is 4.0 for every
draw from 79/80 on, and never more. -/
theorem seismic_range (rand : ℕ → ℚ) (h0 : 0 ≤ rand 4) (h1 : rand 4 < 1) :
    0 ≤ (measurements rand).seismic.toNumber ∧
    (measurements rand).seismic.toNumber ≤ 4 ∧
    (∃ n : ℕ, n ≤ 40 ∧ (measurements rand).seismic.toNumber = (n : ℚ) / 10) ∧
    |(measurements rand).seismic.toNumber - rand 4 * 4| ≤ 1 / 20 ∧
    (79 / 80 ≤ rand 4 → (measurements rand).seismic.toNumber = 4) := by
  have hx : 0 ≤ rand 4 * 4 := by positivity
  have ht : (measurements rand).seismic.tenths = ⌊rand 4 * 4 * 10 + 1 / 2⌋ :=
    toFixed1_nonneg _ hx
  have hlo : (0 : ℤ) ≤ ⌊rand 4 * 4 * 10 + 1 / 2⌋ :=
    Int.floor_nonneg.mpr (by positivity)
  have hhi : ⌊rand 4 * 4 * 10 + 1 / 2⌋ < 41 := by
    rw [Int.floor_lt]
    push_cast
    linarith
  have hfl : ((⌊rand 4 * 4 * 10 + 1 / 2⌋ : ℤ) : ℚ) ≤ rand 4 * 4 * 10 + 1 / 2 :=
    Int.floor_le _
  have hfu : rand 4 * 4 * 10 + 1 / 2 < ((⌊rand 4 * 4 * 10 + 1 / 2⌋ : ℤ) : ℚ) + 1 :=
    Int.lt_floor_add_one _
  have hloq : (0 : ℚ) ≤ ((⌊rand 4 * 4 * 10 + 1 / 2⌋ : ℤ) : ℚ) := by exact_mod_cast hlo
  have hhiq : ((⌊rand 4 * 4 * 10 + 1 / 2⌋ : ℤ) : ℚ) ≤ 40 := by
    have : ⌊rand 4 * 4 * 10 + 1 / 2⌋ ≤ 40 := by omega
    exact_mod_cast this
  simp only [Fixed1.toNumber, ht]
  refine ⟨by linarith, by linarith, ?_, ?_, ?_⟩
  · refine ⟨⌊rand 4 * 4 * 10 + 1 / 2⌋.toNat, ?_, ?_⟩
    · omega
    · have hcast : ((⌊rand 4 * 4 * 10 + 1 / 2⌋.toNat : ℤ)) = ⌊rand 4 * 4 * 10 + 1 / 2⌋ :=
        Int.toNat_of_nonneg hlo
      have hq : ((⌊rand 4 * 4 * 10 + 1 / 2⌋.toNat : ℕ) : ℚ)
          = ((⌊rand 4 * 4 * 10 + 1 / 2⌋ : ℤ) : ℚ) := by exact_mod_cast hcast
      rw [hq]
  · rw [abs_le]
    constructor <;> linarith
  · intro h79
    have h40 : (40 : ℤ) ≤ ⌊rand 4 * 4 * 10 + 1 / 2⌋ := by
      rw [Int.le_floor]
      push_cast
      linarith
    have heq : ⌊rand 4 * 4 * 10 + 1 / 2⌋ = 40 := by omega
    rw [heq]
    norm_num

theorem seismic_range_witness :
    0 ≤ (fun _ : ℕ => (99 / 100 : ℚ)) 4 ∧ (fun _ : ℕ => (99 / 100 : ℚ)) 4 < 1 ∧
    (0 ≤ (measurements (fun _ => 99 / 100)).seismic.toNumber ∧
     (measurements (fun _ => 99 / 100)).seismic.toNumber ≤ 4 ∧
     (∃ n : ℕ, n ≤ 40 ∧
        (measurements (fun _ => 99 / 100)).seismic.toNumber = (n : ℚ) / 10) ∧
     |(measurements (fun _ => 99 / 100)).seismic.toNumber
        - (fun _ : ℕ => (99 / 100 : ℚ)) 4 * 4| ≤ 1 / 20 ∧
     (79 / 80 ≤ (fun _ : ℕ => (99 / 100 : ℚ)) 4 →
        (measurements (fun _ => 99 / 100)).seismic.toNumber = 4)) :=
  ⟨by norm_num, by norm_num,
   seismic_range (fun _ => 99 / 100) (by norm_num) (by norm_num)⟩

/-! ### Element writes -/

theorem writeText_of_none (id text : String) (m : String → Option Slot) (h : m id = none) :
    writeText id text m = m := by
  funext k
  by_cases hk : k = id
  · subst hk
    simp [writeText, h]
  · simp [writeText, hk]

theorem writeWidth_of_none (id : String) (w : ℚ) (m : String → Option Slot)
    (h : m id = none) : writeWidth id w m = m := by
  funext k
  by_cases hk : k = id
  · subst hk
    simp [writeWidth, h]
  · simp [writeWidth, hk]

theorem isSome_writeText (id text : String) (m : String → Option Slot) (k : String) :
    (writeText id text m k).isSome = (m k).isSome := by
  by_cases hk : k = id
  · subst hk
    simp [writeText]
  · simp [writeText, hk]

theorem isSome_writeWidth (id : String) (w : ℚ) (m : String → Option Slot) (k : String) :
    (writeWidth id w m k).isSome = (m k).isSome := by
  by_cases hk : k = id
  · subst hk
    simp [writeWidth]
  · simp [writeWidth, hk]

theorem setTextContent_eq (id text : String) (s : Page) :
    setTextContent id text s =
      if (s.elements id).isSome then
        some { s with elements := writeText id text s.elements }
      else none := by
  unfold setTextContent
  cases h : s.elements id with
  | none => simp
  | some e =>
    simp only [Option.isSome_some, if_true, Option.some.injEq]
    congr 1
    funext k
    by_cases hk : k = id
    · subst hk
      simp [writeText, h]
    · simp [writeText, hk]

theorem setWidth_eq (id : String) (w : ℚ) (s : Page) :
    setWidth id w s =
      if (s.elements id).isSome then
        some { s with elements := writeWidth id w s.elements }
      else none := by
  unfold setWidth
  cases h : s.elements id with
  | none => simp
  | some e =>
    simp only [Option.isSome_some, if_true, Option.some.injEq]
    congr 1
    funext k
    by_cases hk : k = id
    · subst hk
      simp [writeWidth, h]
    · simp [writeWidth, hk]

theorem updateMeasurement_eq (id : String) (value max : ℤ) (s : Page) :
    updateMeasurement id value max s =
      { s with
        elements :=
          writeWidth (id ++ "Bar") (min ((value : ℚ) / max * 100) 100)
            (writeText id (toString value) s.elements) } := by
  unfold updateMeasurement
  simp only [setTextContent_eq, setWidth_eq]
  cases h1 : s.elements id with
  | none =>
    have e1 : writeText id (toString value) s.elements = s.elements :=
      writeText_of_none _ _ _ h1
    rw [e1]
    cases h2 : s.elements (id ++ "Bar") with
    | none =>
      have e2 : writeWidth (id ++ "Bar") (min ((value : ℚ) / max * 100) 100) s.elements
          = s.elements := writeWidth_of_none _ _ _ h2
      simp [h2, e2]
    | some e => simp [h2]
  | some e0 =>
    cases h2 : s.elements (id ++ "Bar") with
    | none =>
      have h3 : writeText id (toString value) s.elements (id ++ "Bar") = none := by
        have := isSome_writeText id (toString value) s.elements (id ++ "Bar")
        rw [h2] at this
        simpa using this
      have e2 := writeWidth_of_none (id ++ "Bar") (min ((value : ℚ) / max * 100) 100) _ h3
      simp [h3, e2]
    | some e =>
      have h3 : (writeText id (toString value) s.elements (id ++ "Bar")).isSome = true := by
        rw [isSome_writeText, h2]
        rfl
      simp [h3]

theorem updateMeasurements_eq (rand : ℕ → ℚ) (s : Page)
    (h : ∀ id ∈ measurementIds, (s.elements id).isSome = true) :
    updateMeasurements rand s =
      some { s with elements := measurementWrites rand s.elements } := by
  have h1 := h "maxWindSpeed" (by simp [measurementIds])
  have h2 := h "tempRange" (by simp [measurementIds])
  have h3 := h "humidityStatus" (by simp [measurementIds])
  have h4 := h "airQualityLevel" (by simp [measurementIds])
  have h5 := h "seismic" (by simp [measurementIds])
  have h6 := h "seismicBar" (by simp [measurementIds])
  have h7 := h "seismicStatus" (by simp [measurementIds])
  have h8 := h "pressureTrend" (by simp [measurementIds])
  unfold updateMeasurements measurementWrites
  simp only [updateMeasurement_eq, setTextContent_eq, setWidth_eq, isSome_writeText,
    isSome_writeWidth, h1, h2, h3, h4, h5, h6, h7, h8, if_true, Option.bind_eq_bind,
    Option.some_bind, Option.pure_def, bind_pure_comp, String.reduceAppend]

theorem text_measurementWrites_humidityStatus (rand : ℕ → ℚ) (m : String → Option Slot) :
    (measurementWrites rand m "humidityStatus").map (fun e => e.textContent) =
      (m "humidityStatus").map (fun _ =>
        if (measurements rand).humidity > 70 then "High"
        else if (measurements rand).humidity > 40 then "Normal" else "Low") := by
  simp [measurementWrites, writeText, writeWidth]
  cases m "humidityStatus" <;> simp

theorem text_measurementWrites_airQualityLevel (rand : ℕ → ℚ) (m : String → Option Slot) :
    (measurementWrites rand m "airQualityLevel").map (fun e => e.textContent) =
      (m "airQualityLevel").map (fun _ =>
        if (measurements rand).airQuality > 150 then "Hazardous"
        else if (measurements rand).airQuality > 100 then "Unhealthy"
        else if (measurements rand).airQuality > 50 then "Moderate" else "Good") := by
  simp [measurementWrites, writeText, writeWidth]
  cases m "airQualityLevel" <;> simp

theorem text_measurementWrites_seismicStatus (rand : ℕ → ℚ) (m : String → Option Slot) :
    (measurementWrites rand m "seismicStatus").map (fun e => e.textContent) =
      (m "seismicStatus").map (fun _ =>
        if (measurements rand).seismic.toNumber > 4 then "High"
        else if (measurements rand).seismic.toNumber > 2 then "Moderate" else "Low") := by
  simp [measurementWrites, writeText, writeWidth]
  cases m "seismicStatus" <;> simp

theorem map_const_of_isSome {α β : Type} (o : Option α) (b : β) (h : o.isSome = true) :
    o.map (fun _ => b) = some b := by
  cases o with
  | none => simp at h
  | some a => rfl

/-- C11: when the elements `updateMeasurements` writes exist, a tick writes
the status labels by the fixed thresholds on the generated measurement:
humidity above 70 gives High, above 40 and at most 70 Normal, otherwise Low;
air quality above 150 / 100 / 50 gives Hazardous / Unhealthy / Moderate,
otherwise Good; seismic magnitude above 4 gives High, above 2 Moderate,
otherwise Low. -/
theorem status_labels_follow_thresholds (rand : ℕ → ℚ) (s : Page)
    (h : ∀ id ∈ measurementIds, (s.elements id).isSome = true) :
    ∃ s', updateMeasurements rand s = some s' ∧
      (70 < (measurements rand).humidity → s'.text "humidityStatus" = some "High") ∧
      (40 < (measurements rand).humidity → (measurements rand).humidity ≤ 70 →
        s'.text "humidityStatus" = some "Normal") ∧
      ((measurements rand).humidity ≤ 40 → s'.text "humidityStatus" = some "Low") ∧
      (150 < (measurements rand).airQuality →
        s'.text "airQualityLevel" = some "Hazardous") ∧
      (100 < (measurements rand).airQuality → (measurements rand).airQuality ≤ 150 →
        s'.text "airQualityLevel" = some "Unhealthy") ∧
      (50 < (measurements rand).airQuality → (measurements rand).airQuality ≤ 100 →
        s'.text "airQualityLevel" = some "Moderate") ∧
      ((measurements rand).airQuality ≤ 50 → s'.text "airQualityLevel" = some "Good") ∧
      (4 < (measurements rand).seismic.toNumber → s'.text "seismicStatus" = some "High") ∧
      (2 < (measurements rand).seismic.toNumber → (measurements rand).seismic.toNumber ≤ 4 →
        s'.text "seismicStatus" = some "Moderate") ∧
      ((measurements rand).seismic.toNumber ≤ 2 → s'.text "seismicStatus" = some "Low") := by
  have hh : (s.elements "humidityStatus").isSome = true :=
    h "humidityStatus" (by simp [measurementIds])
  have ha : (s.elements "airQualityLevel").isSome = true :=
    h "airQualityLevel" (by simp [measurementIds])
  have hs : (s.elements "seismicStatus").isSome = true :=
    h "seismicStatus" (by simp [measurementIds])
  have eh := text_measurementWrites_humidityStatus rand s.elements
  have ea := text_measurementWrites_airQualityLevel rand s.elements
  have es := text_measurementWrites_seismicStatus rand s.elements
  rw [map_const_of_isSome _ _ hh] at eh
  rw [map_const_of_isSome _ _ ha] at ea
  rw [map_const_of_isSome _ _ hs] at es
  refine ⟨_, updateMeasurements_eq rand s h, ?_, ?_, ?_, ?_, ?_, ?_, ?_, ?_, ?_, ?_⟩
  · intro h1
    simp only [Page.text, eh, gt_iff_lt, h1, if_true]
  · intro h1 h2
    simp only [Page.text, eh, gt_iff_lt, h1, not_lt.mpr h2, if_true, if_false]
  · intro h1
    have h2 : ¬ (70 < (measurements rand).humidity) := by omega
    simp only [Page.text, eh, gt_iff_lt, not_lt.mpr h1, h2, if_false]
  · intro h1
    simp only [Page.text, ea, gt_iff_lt, h1, if_true]
  · intro h1 h2
    simp only [Page.text, ea, gt_iff_lt, h1, not_lt.mpr h2, if_true, if_false]
  · intro h1 h2
    have h3 : ¬ (150 < (measurements rand).airQuality) := by omega
    simp only [Page.text, ea, gt_iff_lt, h1, not_lt.mpr h2, h3, if_true, if_false]
  · intro h1
    have h2 : ¬ (150 < (measurements rand).airQuality) := by omega
    have h3 : ¬ (100 < (measurements rand).airQuality) := by omega
    simp only [Page.text, ea, gt_iff_lt, not_lt.mpr h1, h2, h3, if_false]
  · intro h1
    simp only [Page.text, es, gt_iff_lt, h1, if_true]
  · intro h1 h2
    simp only [Page.text, es, gt_iff_lt, h1, not_lt.mpr h2, if_true, if_false]
  · intro h1
    have h2 : ¬ (4 < (measurements rand).seismic.toNumber) := by linarith
    simp only [Page.text, es, gt_iff_lt, not_lt.mpr h1, h2, if_false]

theorem status_labels_follow_thresholds_witness :
    (∀ id ∈ measurementIds, ((Page.initial (fun _ => some ⟨"", none⟩)).elements id).isSome = true) ∧
    (∃ s', updateMeasurements (fun _ => 1 / 2) (Page.initial (fun _ => some ⟨"", none⟩)) = some s' ∧
      (70 < (measurements (fun _ => 1 / 2)).humidity → s'.text "humidityStatus" = some "High") ∧
      (40 < (measurements (fun _ => 1 / 2)).humidity → (measurements (fun _ => 1 / 2)).humidity ≤ 70 →
        s'.text "humidityStatus" = some "Normal") ∧
      ((measurements (fun _ => 1 / 2)).humidity ≤ 40 → s'.text "humidityStatus" = some "Low") ∧
      (150 < (measurements (fun _ => 1 / 2)).airQuality →
        s'.text "airQualityLevel" = some "Hazardous") ∧
      (100 < (measurements (fun _ => 1 / 2)).airQuality → (measurements (fun _ => 1 / 2)).airQuality ≤ 150 →
        s'.text "airQualityLevel" = some "Unhealthy") ∧
      (50 < (measurements (fun _ => 1 / 2)).airQuality → (measurements (fun _ => 1 / 2)).airQuality ≤ 100 →
        s'.text "airQualityLevel" = some "Moderate") ∧
      ((measurements (fun _ => 1 / 2)).airQuality ≤ 50 → s'.text "airQualityLevel" = some "Good") ∧
      (4 < (measurements (fun _ => 1 / 2)).seismic.toNumber → s'.text "seismicStatus" = some "High") ∧
      (2 < (measurements (fun _ => 1 / 2)).seismic.toNumber → (measurements (fun _ => 1 / 2)).seismic.toNumber ≤ 4 →
        s'.text "seismicStatus" = some "Moderate") ∧
      ((measurements (fun _ => 1 / 2)).seismic.toNumber ≤ 2 → s'.text "seismicStatus" = some "Low")) :=
  ⟨fun _ _ => rfl, status_labels_follow_thresholds (fun _ => 1 / 2) (Page.initial (fun _ => some ⟨"", none⟩)) (fun _ _ => rfl)⟩

/-! ### Bar widths -/

theorem width_updateMeasurement (id : String) (value max : ℤ) (t : Page)
    (h : (t.elements (id ++ "Bar")).isSome = true) :
    (updateMeasurement id value max t).barWidth (id ++ "Bar")
      = some (min ((value : ℚ) / max * 100) 100) := by
  rw [updateMeasurement_eq]
  have h2 : (writeText id (toString value) t.elements (id ++ "Bar")).isSome = true := by
    rw [isSome_writeText]
    exact h
  simp only [Page.barWidth, writeWidth, if_true]
  cases hw : writeText id (toString value) t.elements (id ++ "Bar") with
  | none => simp [hw] at h2
  | some e => rfl

theorem width_measurementWrites (rand : ℕ → ℚ) (m : String → Option Slot) :
    (measurementWrites rand m "windSpeedBar").bind (fun e => e.width)
      = (m "windSpeedBar").map
          (fun _ => min (((measurements rand).windSpeed : ℚ) / (100 : ℤ) * 100) 100) ∧
    (measurementWrites rand m "temperatureBar").bind (fun e => e.width)
      = (m "temperatureBar").map
          (fun _ => min (((measurements rand).temperature : ℚ) / (50 : ℤ) * 100) 100) ∧
    (measurementWrites rand m "humidityBar").bind (fun e => e.width)
      = (m "humidityBar").map
          (fun _ => min (((measurements rand).humidity : ℚ) / (100 : ℤ) * 100) 100) ∧
    (measurementWrites rand m "airQualityBar").bind (fun e => e.width)
      = (m "airQualityBar").map
          (fun _ => min (((measurements rand).airQuality : ℚ) / (300 : ℤ) * 100) 100) ∧
    (measurementWrites rand m "seismicBar").bind (fun e => e.width)
      = (m "seismicBar").map (fun _ => (measurements rand).seismic.toNumber / 6 * 100) ∧
    (measurementWrites rand m "pressureBar").bind (fun e => e.width)
      = (m "pressureBar").map
          (fun _ => min (((measurements rand).pressure : ℚ) / (1050 : ℤ) * 100) 100) := by
  refine ⟨?_, ?_, ?_, ?_, ?_, ?_⟩
  · simp [measurementWrites, writeText, writeWidth]
    cases m "windSpeedBar" <;> simp
  · simp [measurementWrites, writeText, writeWidth]
    cases m "temperatureBar" <;> simp
  · simp [measurementWrites, writeText, writeWidth]
    cases m "humidityBar" <;> simp
  · simp [measurementWrites, writeText, writeWidth]
    cases m "airQualityBar" <;> simp
  · simp [measurementWrites, writeText, writeWidth]
    cases m "seismicBar" <;> simp
  · simp [measurementWrites, writeText, writeWidth]
    cases m "pressureBar" <;> simp

theorem seismic_toNumber_bounds (rand : ℕ → ℚ) (h0 : 0 ≤ rand 4) (h1 : rand 4 < 1) :
    0 ≤ (measurements rand).seismic.toNumber ∧ (measurements rand).seismic.toNumber ≤ 4 := by
  have hx : 0 ≤ rand 4 * 4 := by positivity
  have ht : (measurements rand).seismic.tenths = ⌊rand 4 * 4 * 10 + 1 / 2⌋ :=
    toFixed1_nonneg _ hx
  have hlo : (0 : ℤ) ≤ ⌊rand 4 * 4 * 10 + 1 / 2⌋ := Int.floor_nonneg.mpr (by positivity)
  have hhi : ⌊rand 4 * 4 * 10 + 1 / 2⌋ < 41 := by
    rw [Int.floor_lt]
    push_cast
    linarith
  have hloq : (0 : ℚ) ≤ ((⌊rand 4 * 4 * 10 + 1 / 2⌋ : ℤ) : ℚ) := by exact_mod_cast hlo
  have hhiq : ((⌊rand 4 * 4 * 10 + 1 / 2⌋ : ℤ) : ℚ) ≤ 40 := by
    have : ⌊rand 4 * 4 * 10 + 1 / 2⌋ ≤ 40 := by omega
    exact_mod_cast this
  simp only [Fixed1.toNumber, ht]
  constructor <;> linarith

theorem measurement_int_bounds (rand : ℕ → ℚ) (hr : ∀ i, 0 ≤ rand i ∧ rand i < 1) :
    (10 ≤ (measurements rand).windSpeed ∧ (measurements rand).windSpeed ≤ 89) ∧
    (5 ≤ (measurements rand).temperature ∧ (measurements rand).temperature ≤ 39) ∧
    (30 ≤ (measurements rand).humidity ∧ (measurements rand).humidity ≤ 89) ∧
    (20 ≤ (measurements rand).airQuality ∧ (measurements rand).airQuality ≤ 169) ∧
    (980 ≤ (measurements rand).pressure ∧ (measurements rand).pressure ≤ 1029) := by
  have h0 := floor_draw_bounds (rand 0) 80 (by norm_num) (hr 0).1 (hr 0).2
  have h1 := floor_draw_bounds (rand 1) 35 (by norm_num) (hr 1).1 (hr 1).2
  have h2 := floor_draw_bounds (rand 2) 60 (by norm_num) (hr 2).1 (hr 2).2
  have h3 := floor_draw_bounds (rand 3) 150 (by norm_num) (hr 3).1 (hr 3).2
  have h5 := floor_draw_bounds (rand 5) 50 (by norm_num) (hr 5).1 (hr 5).2
  obtain ⟨a0, b0⟩ := h0
  obtain ⟨a1, b1⟩ := h1
  obtain ⟨a2, b2⟩ := h2
  obtain ⟨a3, b3⟩ := h3
  obtain ⟨a5, b5⟩ := h5
  push_cast at a0 b0 a1 b1 a2 b2 a3 b3 a5 b5
  have e0 : (measurements rand).windSpeed = ⌊rand 0 * 80⌋ + 10 := rfl
  have e1 : (measurements rand).temperature = ⌊rand 1 * 35⌋ + 5 := rfl
  have e2 : (measurements rand).humidity = ⌊rand 2 * 60⌋ + 30 := rfl
  have e3 : (measurements rand).airQuality = ⌊rand 3 * 150⌋ + 20 := rfl
  have e5 : (measurements rand).pressure = ⌊rand 5 * 50⌋ + 980 := rfl
  rw [e0, e1, e2, e3, e5]
  refine ⟨⟨?_, ?_⟩, ⟨?_, ?_⟩, ⟨?_, ?_⟩, ⟨?_, ?_⟩, ⟨?_, ?_⟩⟩ <;> omega

/-- C12: `updateMeasurement(id, value, max, unit)` writes the bar width
`min(value / max * 100, 100)`, which is at most 100; and in an
`updateMeasurements` tick with draws in [0,1) each of the six bar widths
written (wind / 100, temperature / 50, humidity / 100, air quality / 300,
seismic / 6, pressure / 1050, as percentages) lies between 0 and 100. -/
theorem bar_widths_in_range (rand : ℕ → ℚ) (s : Page)
    (hr : ∀ i, 0 ≤ rand i ∧ rand i < 1)
    (h : ∀ id ∈ measurementIds, (s.elements id).isSome = true) :
    (∀ (id : String) (value max : ℤ) (t : Page), (t.elements (id ++ "Bar")).isSome = true →
        (updateMeasurement id value max t).barWidth (id ++ "Bar")
          = some (min ((value : ℚ) / max * 100) 100) ∧
        min ((value : ℚ) / max * 100) 100 ≤ 100) ∧
    ∃ s', updateMeasurements rand s = some s' ∧
      s'.barWidth "windSpeedBar" = (s.elements "windSpeedBar").map (fun _ => ((measurements rand).windSpeed : ℚ) / 100 * 100) ∧
      0 ≤ ((measurements rand).windSpeed : ℚ) / 100 * 100 ∧
      ((measurements rand).windSpeed : ℚ) / 100 * 100 ≤ 100 ∧
      s'.barWidth "temperatureBar" = (s.elements "temperatureBar").map (fun _ => ((measurements rand).temperature : ℚ) / 50 * 100) ∧
      0 ≤ ((measurements rand).temperature : ℚ) / 50 * 100 ∧
      ((measurements rand).temperature : ℚ) / 50 * 100 ≤ 100 ∧
      s'.barWidth "humidityBar" = (s.elements "humidityBar").map (fun _ => ((measurements rand).humidity : ℚ) / 100 * 100) ∧
      0 ≤ ((measurements rand).humidity : ℚ) / 100 * 100 ∧
      ((measurements rand).humidity : ℚ) / 100 * 100 ≤ 100 ∧
      s'.barWidth "airQualityBar" = (s.elements "airQualityBar").map (fun _ => ((measurements rand).airQuality : ℚ) / 300 * 100) ∧
      0 ≤ ((measurements rand).airQuality : ℚ) / 300 * 100 ∧
      ((measurements rand).airQuality : ℚ) / 300 * 100 ≤ 100 ∧
      s'.barWidth "seismicBar" = (s.elements "seismicBar").map (fun _ => (measurements rand).seismic.toNumber / 6 * 100) ∧
      0 ≤ (measurements rand).seismic.toNumber / 6 * 100 ∧
      (measurements rand).seismic.toNumber / 6 * 100 ≤ 100 ∧
      s'.barWidth "pressureBar" = (s.elements "pressureBar").map (fun _ => ((measurements rand).pressure : ℚ) / 1050 * 100) ∧
      0 ≤ ((measurements rand).pressure : ℚ) / 1050 * 100 ∧
      ((measurements rand).pressure : ℚ) / 1050 * 100 ≤ 100 := by
  obtain ⟨hw, ht, hh, ha, hp⟩ := measurement_int_bounds rand hr
  obtain ⟨hs0, hs1⟩ := seismic_toNumber_bounds rand (hr 4).1 (hr 4).2
  obtain ⟨ew, et, eh, ea, es, ep⟩ := width_measurementWrites rand s.elements
  have qw0 : (10 : ℚ) ≤ ((measurements rand).windSpeed : ℚ) := by exact_mod_cast hw.1
  have qw1 : ((measurements rand).windSpeed : ℚ) ≤ 89 := by exact_mod_cast hw.2
  have qt0 : (5 : ℚ) ≤ ((measurements rand).temperature : ℚ) := by exact_mod_cast ht.1
  have qt1 : ((measurements rand).temperature : ℚ) ≤ 39 := by exact_mod_cast ht.2
  have qh0 : (30 : ℚ) ≤ ((measurements rand).humidity : ℚ) := by exact_mod_cast hh.1
  have qh1 : ((measurements rand).humidity : ℚ) ≤ 89 := by exact_mod_cast hh.2
  have qa0 : (20 : ℚ) ≤ ((measurements rand).airQuality : ℚ) := by exact_mod_cast ha.1
  have qa1 : ((measurements rand).airQuality : ℚ) ≤ 169 := by exact_mod_cast ha.2
  have qp0 : (980 : ℚ) ≤ ((measurements rand).pressure : ℚ) := by exact_mod_cast hp.1
  have qp1 : ((measurements rand).pressure : ℚ) ≤ 1029 := by exact_mod_cast hp.2
  have mw : min (((measurements rand).windSpeed : ℚ) / (100 : ℤ) * 100) 100
      = ((measurements rand).windSpeed : ℚ) / 100 * 100 := by
    push_cast
    exact min_eq_left (by linarith)
  have mt : min (((measurements rand).temperature : ℚ) / (50 : ℤ) * 100) 100
      = ((measurements rand).temperature : ℚ) / 50 * 100 := by
    push_cast
    exact min_eq_left (by linarith)
  have mh : min (((measurements rand).humidity : ℚ) / (100 : ℤ) * 100) 100
      = ((measurements rand).humidity : ℚ) / 100 * 100 := by
    push_cast
    exact min_eq_left (by linarith)
  have ma : min (((measurements rand).airQuality : ℚ) / (300 : ℤ) * 100) 100
      = ((measurements rand).airQuality : ℚ) / 300 * 100 := by
    push_cast
    exact min_eq_left (by linarith)
  have mp : min (((measurements rand).pressure : ℚ) / (1050 : ℤ) * 100) 100
      = ((measurements rand).pressure : ℚ) / 1050 * 100 := by
    push_cast
    exact min_eq_left (by linarith)
  rw [mw] at ew
  rw [mt] at et
  rw [mh] at eh
  rw [ma] at ea
  rw [mp] at ep
  refine ⟨fun id value max t ht => ⟨width_updateMeasurement id value max t ht,
    min_le_right _ _⟩, _, updateMeasurements_eq rand s h, ?_⟩
  exact ⟨ew, by linarith, by linarith, et, by linarith, by linarith,
    eh, by linarith, by linarith, ea, by linarith, by linarith,
    es, by linarith, by linarith, ep, by linarith, by linarith⟩

theorem bar_widths_in_range_witness :
    (∀ i : ℕ, 0 ≤ (fun _ : ℕ => (1 / 2 : ℚ)) i ∧ (fun _ : ℕ => (1 / 2 : ℚ)) i < 1) ∧
    (∀ id ∈ measurementIds, ((Page.initial (fun _ => some ⟨"", none⟩)).elements id).isSome = true) ∧
    ((∀ (id : String) (value max : ℤ) (t : Page), (t.elements (id ++ "Bar")).isSome = true →
        (updateMeasurement id value max t).barWidth (id ++ "Bar")
          = some (min ((value : ℚ) / max * 100) 100) ∧
        min ((value : ℚ) / max * 100) 100 ≤ 100) ∧
    ∃ s', updateMeasurements (fun _ => 1 / 2) (Page.initial (fun _ => some ⟨"", none⟩)) = some s' ∧
      s'.barWidth "windSpeedBar" = ((Page.initial (fun _ => some ⟨"", none⟩)).elements "windSpeedBar").map (fun _ => ((measurements (fun _ => 1 / 2)).windSpeed : ℚ) / 100 * 100) ∧
      0 ≤ ((measurements (fun _ => 1 / 2)).windSpeed : ℚ) / 100 * 100 ∧
      ((measurements (fun _ => 1 / 2)).windSpeed : ℚ) / 100 * 100 ≤ 100 ∧
      s'.barWidth "temperatureBar" = ((Page.initial (fun _ => some ⟨"", none⟩)).elements "temperatureBar").map (fun _ => ((measurements (fun _ => 1 / 2)).temperature : ℚ) / 50 * 100) ∧
      0 ≤ ((measurements (fun _ => 1 / 2)).temperature : ℚ) / 50 * 100 ∧
      ((measurements (fun _ => 1 / 2)).temperature : ℚ) / 50 * 100 ≤ 100 ∧
      s'.barWidth "humidityBar" = ((Page.initial (fun _ => some ⟨"", none⟩)).elements "humidityBar").map (fun _ => ((measurements (fun _ => 1 / 2)).humidity : ℚ) / 100 * 100) ∧
      0 ≤ ((measurements (fun _ => 1 / 2)).humidity : ℚ) / 100 * 100 ∧
      ((measurements (fun _ => 1 / 2)).humidity : ℚ) / 100 * 100 ≤ 100 ∧
      s'.barWidth "airQualityBar" = ((Page.initial (fun _ => some ⟨"", none⟩)).elements "airQualityBar").map (fun _ => ((measurements (fun _ => 1 / 2)).airQuality : ℚ) / 300 * 100) ∧
      0 ≤ ((measurements (fun _ => 1 / 2)).airQuality : ℚ) / 300 * 100 ∧
      ((measurements (fun _ => 1 / 2)).airQuality : ℚ) / 300 * 100 ≤ 100 ∧
      s'.barWidth "seismicBar" = ((Page.initial (fun _ => some ⟨"", none⟩)).elements "seismicBar").map (fun _ => (measurements (fun _ => 1 / 2)).seismic.toNumber / 6 * 100) ∧
      0 ≤ (measurements (fun _ => 1 / 2)).seismic.toNumber / 6 * 100 ∧
      (measurements (fun _ => 1 / 2)).seismic.toNumber / 6 * 100 ≤ 100 ∧
      s'.barWidth "pressureBar" = ((Page.initial (fun _ => some ⟨"", none⟩)).elements "pressureBar").map (fun _ => ((measurements (fun _ => 1 / 2)).pressure : ℚ) / 1050 * 100) ∧
      0 ≤ ((measurements (fun _ => 1 / 2)).pressure : ℚ) / 1050 * 100 ∧
      ((measurements (fun _ => 1 / 2)).pressure : ℚ) / 1050 * 100 ≤ 100) :=
  ⟨fun _ => by norm_num, fun _ _ => rfl,
   bar_widths_in_range (fun _ => 1 / 2) (Page.initial (fun _ => some ⟨"", none⟩))
     (fun _ => by norm_num) (fun _ _ => rfl)⟩

/-! ### Alert feed -/

theorem arrayAt_pool (xs : List String) (r : ℚ) (h0 : 0 ≤ r) (h1 : r < 1) (hx : xs ≠ []) :
    (0 ≤ ⌊r * (xs.length : ℚ)⌋ ∧ ⌊r * (xs.length : ℚ)⌋ < xs.length) ∧
    ∃ line ∈ xs, arrayAt xs ⌊r * (xs.length : ℚ)⌋ = .string line := by
  have hpos : (0 : ℤ) < (xs.length : ℤ) := by
    have : 0 < xs.length := List.length_pos.mpr hx
    exact_mod_cast this
  have hb := floor_draw_bounds r (xs.length : ℤ) hpos h0 h1
  have hcast : (((xs.length : ℤ)) : ℚ) = (xs.length : ℚ) := by push_cast; rfl
  rw [hcast] at hb
  obtain ⟨hlo, hhi⟩ := hb
  refine ⟨⟨hlo, hhi⟩, ?_⟩
  have hlt : ⌊r * (xs.length : ℚ)⌋.toNat < xs.length := by omega
  refine ⟨xs[⌊r * (xs.length : ℚ)⌋.toNat], List.getElem_mem _, ?_⟩
  unfold arrayAt
  rw [if_neg (not_lt.mpr hlo), List.getElem?_eq_getElem hlt]

theorem checkNewAlerts_quiet (rand : ℕ → ℚ) (s : Page) (hq : rand 0 ≤ alertThreshold) :
    checkNewAlerts rand s = some s := by
  unfold checkNewAlerts
  rw [if_neg (not_lt.mpr hq)]

theorem checkNewAlerts_publish (rand : ℕ → ℚ) (s : Page) (hp : alertThreshold < rand 0)
    (he : (s.elements "alertText").isSome = true) :
    checkNewAlerts rand s =
      some (showNotification "New disaster alert received!" "warning"
        { s with
          elements :=
            writeText "alertText"
              (arrayAt alertTexts ⌊rand 1 * (alertTexts.length : ℚ)⌋).toTextContent
              s.elements }) := by
  unfold checkNewAlerts
  rw [if_pos hp]
  simp only [setTextContent_eq, he, if_true, Option.bind_eq_bind, Option.some_bind]

theorem checkNewAlerts_ne (rand : ℕ → ℚ) (s : Page) (hp : alertThreshold < rand 0) :
    checkNewAlerts rand s ≠ some s := by
  unfold checkNewAlerts
  rw [if_pos hp]
  simp only [setTextContent_eq, Option.bind_eq_bind]
  by_cases he : (s.elements "alertText").isSome = true
  · simp only [he, if_true, Option.some_bind, ne_eq, Option.some.injEq]
    intro hEq
    have hlen := congrArg (fun p => p.timeouts.length) hEq
    simp [showNotification] at hlen
  · simp [he]

theorem script_setTextContent_eq (id text : String) (t : Script.Page) :
    Script.setTextContent id text t =
      if (t.elements id).isSome then
        some { t with elements := writeText id text t.elements }
      else none := by
  unfold Script.setTextContent
  cases h : t.elements id with
  | none => simp
  | some e =>
    simp only [Option.isSome_some, if_true, Option.some.injEq]
    congr 1
    funext k
    by_cases hk : k = id
    · subst hk
      simp [writeText, h]
    · simp [writeText, hk]

theorem script_showNotification_warning (message : String) (t : Script.Page) :
    Script.showNotification message "warning" t =
      some { t with
        body := t.body ++
          [{ id := t.created,
             classList :=
               (Script.splitSpace "bg-yellow-500" ++ ["text-white"]).foldl classListAdd
                 Script.notificationClasses,
             innerHTML := Script.notificationHTML message }],
        timers := t.timers ++ [⟨100, .slideIn t.created⟩, ⟨3000, .slideOut t.created⟩],
        created := t.created + 1 } := by
  simp [Script.showNotification, Script.notificationColors]

theorem checkForNewAlerts_quiet (rand : ℕ → ℚ) (t : Script.Page)
    (hq : rand 0 ≤ Script.alertThreshold) :
    Script.checkForNewAlerts rand t = some t := by
  unfold Script.checkForNewAlerts
  simp [not_lt.mpr hq]

theorem checkForNewAlerts_publish (rand : ℕ → ℚ) (t : Script.Page)
    (hp : Script.alertThreshold < rand 0)
    (he : (t.elements "alertText").isSome = true) :
    Script.checkForNewAlerts rand t =
      some
        { t with
          elements :=
            writeText "alertText"
              (arrayAt Script.alertTexts
                ⌊rand 1 * (Script.alertTexts.length : ℚ)⌋).toTextContent t.elements,
          body := t.body ++
            [{ id := t.created,
               classList :=
                 (Script.splitSpace "bg-yellow-500" ++ ["text-white"]).foldl classListAdd
                   Script.notificationClasses,
               innerHTML := Script.notificationHTML "New disaster alert received!" }],
          timers := t.timers ++ [⟨100, .slideIn t.created⟩, ⟨3000, .slideOut t.created⟩],
          created := t.created + 1 } := by
  unfold Script.checkForNewAlerts
  simp only [gt_iff_lt, hp, decide_True, if_true, script_setTextContent_eq, he,
    Option.bind_eq_bind, Option.some_bind, script_showNotification_warning]

theorem checkForNewAlerts_ne (rand : ℕ → ℚ) (t : Script.Page)
    (hp : Script.alertThreshold < rand 0) :
    Script.checkForNewAlerts rand t ≠ some t := by
  by_cases he : (t.elements "alertText").isSome = true
  · rw [checkForNewAlerts_publish rand t hp he]
    intro hEq
    have hc := congrArg (fun p => p.created) (Option.some.inj hEq)
    simp at hc
  · unfold Script.checkForNewAlerts
    simp [hp, script_setTextContent_eq, he]

theorem text_writeText_self (id text : String) (m : String → Option Slot)
    (h : (m id).isSome = true) :
    (writeText id text m id).map (fun e => e.textContent) = some text := by
  cases hm : m id with
  | none => simp [hm] at h
  | some e => simp [writeText, hm]

theorem volume_draws_above (a : ℝ) (ha : 0 ≤ a) :
    MeasureTheory.volume {r : ℝ | 0 ≤ r ∧ r < 1 ∧ a < r} = ENNReal.ofReal (1 - a) := by
  have hset : {r : ℝ | 0 ≤ r ∧ r < 1 ∧ a < r} = Set.Ioo a 1 := by
    ext r
    simp only [Set.mem_setOf_eq, Set.mem_Ioo]
    constructor
    · rintro ⟨_, h1, h2⟩
      exact ⟨h2, h1⟩
    · rintro ⟨h2, h1⟩
      exact ⟨le_trans ha h2.le, h1, h2⟩
  rw [hset, Real.volume_Ioo]

theorem mem_classListAdd (classes : List String) (c : String) :
    c ∈ classListAdd classes c := by
  unfold classListAdd
  split
  · assumption
  · simp

theorem showNotification_shown (message type : String) (s : Page) :
    (showNotification message type s).notificationShown = true := by
  simp only [Page.notificationShown, showNotification, decide_eq_true_eq]
  exact mem_classListAdd _ _

/-- C13: the alert tick of `frontend-script.js` is a no-op exactly when its
first draw is at most 0.7 and publishes (ticker text from the pool,
notification displayed) when the draw is above 0.7; the tick of `script.js`
does the same with 0.8.  The draws of [0,1) on which a line is published
have measure 0.3 and 0.2. -/
theorem alert_tick_threshold (rand : ℕ → ℚ) (s : Page) (t : Script.Page) :
    (checkNewAlerts rand s = some s ↔ rand 0 ≤ 7 / 10) ∧
    (7 / 10 < rand 0 → (s.elements "alertText").isSome = true →
      ∃ s', checkNewAlerts rand s = some s' ∧
        s'.text "alertText"
          = some (arrayAt alertTexts ⌊rand 1 * (alertTexts.length : ℚ)⌋).toTextContent ∧
        s'.notificationShown = true ∧
        s'.notificationContainer.innerHTML
          = notificationHTML "New disaster alert received!" "warning") ∧
    (Script.checkForNewAlerts rand t = some t ↔ rand 0 ≤ 8 / 10) ∧
    (8 / 10 < rand 0 → (t.elements "alertText").isSome = true →
      ∃ t', Script.checkForNewAlerts rand t = some t' ∧
        (t'.elements "alertText").map (fun e => e.textContent)
          = some (arrayAt Script.alertTexts
              ⌊rand 1 * (Script.alertTexts.length : ℚ)⌋).toTextContent ∧
        t'.body.map (fun n => n.innerHTML)
          = t.body.map (fun n => n.innerHTML)
            ++ [Script.notificationHTML "New disaster alert received!"]) ∧
    MeasureTheory.volume {r : ℝ | 0 ≤ r ∧ r < 1 ∧ ((alertThreshold : ℚ) : ℝ) < r}
      = ENNReal.ofReal (3 / 10) ∧
    MeasureTheory.volume {r : ℝ | 0 ≤ r ∧ r < 1 ∧ ((Script.alertThreshold : ℚ) : ℝ) < r}
      = ENNReal.ofReal (2 / 10) := by
  have ha : alertThreshold = 7 / 10 := rfl
  have hb : Script.alertThreshold = 8 / 10 := rfl
  refine ⟨?_, ?_, ?_, ?_, ?_, ?_⟩
  · constructor
    · intro h
      by_contra hc
      exact checkNewAlerts_ne rand s (by rw [ha]; exact not_le.mp hc) h
    · intro h
      exact checkNewAlerts_quiet rand s (by rw [ha]; exact h)
  · intro hp he
    refine ⟨_, checkNewAlerts_publish rand s (by rw [ha]; exact hp) he, ?_, ?_, rfl⟩
    · exact text_writeText_self _ _ _ he
    · exact showNotification_shown _ _ _
  · constructor
    · intro h
      by_contra hc
      exact checkForNewAlerts_ne rand t (by rw [hb]; exact not_le.mp hc) h
    · intro h
      exact checkForNewAlerts_quiet rand t (by rw [hb]; exact h)
  · intro hp he
    refine ⟨_, checkForNewAlerts_publish rand t (by rw [hb]; exact hp) he, ?_, ?_⟩
    · exact text_writeText_self _ _ _ he
    · simp
  · rw [volume_draws_above _ (by rw [ha]; norm_num), ha]
    congr 1
    norm_num
  · rw [volume_draws_above _ (by rw [hb]; norm_num), hb]
    congr 1
    norm_num

theorem alert_tick_threshold_witness :
    (checkNewAlerts (fun _ : ℕ => (9 / 10 : ℚ)) (Page.initial (fun _ => some ⟨"", none⟩)) = some (Page.initial (fun _ => some ⟨"", none⟩)) ↔ (fun _ : ℕ => (9 / 10 : ℚ)) 0 ≤ 7 / 10) ∧
    (7 / 10 < (fun _ : ℕ => (9 / 10 : ℚ)) 0 → ((Page.initial (fun _ => some ⟨"", none⟩)).elements "alertText").isSome = true →
      ∃ s', checkNewAlerts (fun _ : ℕ => (9 / 10 : ℚ)) (Page.initial (fun _ => some ⟨"", none⟩)) = some s' ∧
        s'.text "alertText"
          = some (arrayAt alertTexts ⌊(fun _ : ℕ => (9 / 10 : ℚ)) 1 * (alertTexts.length : ℚ)⌋).toTextContent ∧
        s'.notificationShown = true ∧
        s'.notificationContainer.innerHTML
          = notificationHTML "New disaster alert received!" "warning") ∧
    (Script.checkForNewAlerts (fun _ : ℕ => (9 / 10 : ℚ)) (Script.Page.initial (fun _ => some ⟨"", none⟩)) = some (Script.Page.initial (fun _ => some ⟨"", none⟩)) ↔ (fun _ : ℕ => (9 / 10 : ℚ)) 0 ≤ 8 / 10) ∧
    (8 / 10 < (fun _ : ℕ => (9 / 10 : ℚ)) 0 → ((Script.Page.initial (fun _ => some ⟨"", none⟩)).elements "alertText").isSome = true →
      ∃ t', Script.checkForNewAlerts (fun _ : ℕ => (9 / 10 : ℚ)) (Script.Page.initial (fun _ => some ⟨"", none⟩)) = some t' ∧
        (t'.elements "alertText").map (fun e => e.textContent)
          = some (arrayAt Script.alertTexts
              ⌊(fun _ : ℕ => (9 / 10 : ℚ)) 1 * (Script.alertTexts.length : ℚ)⌋).toTextContent ∧
        t'.body.map (fun n => n.innerHTML)
          = (Script.Page.initial (fun _ => some ⟨"", none⟩)).body.map (fun n => n.innerHTML)
            ++ [Script.notificationHTML "New disaster alert received!"]) ∧
    MeasureTheory.volume {r : ℝ | 0 ≤ r ∧ r < 1 ∧ ((alertThreshold : ℚ) : ℝ) < r}
      = ENNReal.ofReal (3 / 10) ∧
    MeasureTheory.volume {r : ℝ | 0 ≤ r ∧ r < 1 ∧ ((Script.alertThreshold : ℚ) : ℝ) < r}
      = ENNReal.ofReal (2 / 10) :=
  alert_tick_threshold (fun _ => 9 / 10) (Page.initial (fun _ => some ⟨"", none⟩)) (Script.Page.initial (fun _ => some ⟨"", none⟩))

/-- C14: with the selection draw in [0,1) the index `⌊r * 4⌋` is between 0
and 3, so whenever a tick publishes the ticker text is one of the four lines
of the pool, in `frontend-script.js` and in `script.js`; and no tick changes
the alert cards. -/
theorem alert_tick_pool_line (rand : ℕ → ℚ) (s : Page) (t : Script.Page)
    (h0 : 0 ≤ rand 1) (h1 : rand 1 < 1) :
    (alertTexts.length = 4 ∧ Script.alertTexts.length = 4 ∧
      0 ≤ ⌊rand 1 * 4⌋ ∧ ⌊rand 1 * 4⌋ < 4) ∧
    (7 / 10 < rand 0 → (s.elements "alertText").isSome = true →
      ∃ s' line, checkNewAlerts rand s = some s' ∧ line ∈ alertTexts ∧
        s'.text "alertText" = some line) ∧
    (∀ s', checkNewAlerts rand s = some s' → s'.alertsContainer = s.alertsContainer) ∧
    (8 / 10 < rand 0 → (t.elements "alertText").isSome = true →
      ∃ t' line, Script.checkForNewAlerts rand t = some t' ∧ line ∈ Script.alertTexts ∧
        (t'.elements "alertText").map (fun e => e.textContent) = some line) ∧
    (∀ t', Script.checkForNewAlerts rand t = some t' →
      t'.alertsContainer = t.alertsContainer) := by
  have ha : alertThreshold = 7 / 10 := rfl
  have hb : Script.alertThreshold = 8 / 10 := rfl
  obtain ⟨hidx, line, hmem, hline⟩ :=
    arrayAt_pool alertTexts (rand 1) h0 h1 (by simp [alertTexts])
  obtain ⟨_, line2, hmem2, hline2⟩ :=
    arrayAt_pool Script.alertTexts (rand 1) h0 h1 (by simp [Script.alertTexts])
  have hlen : alertTexts.length = 4 := rfl
  have hlen2 : Script.alertTexts.length = 4 := rfl
  refine ⟨⟨hlen, hlen2, ?_, ?_⟩, ?_, ?_, ?_, ?_⟩
  · have := hidx.1
    rw [hlen] at this
    exact_mod_cast this
  · have := hidx.2
    rw [hlen] at this
    exact_mod_cast this
  · intro hp he
    refine ⟨_, line, checkNewAlerts_publish rand s (by rw [ha]; exact hp) he, hmem, ?_⟩
    have := text_writeText_self "alertText"
      (arrayAt alertTexts ⌊rand 1 * (alertTexts.length : ℚ)⌋).toTextContent s.elements he
    exact this.trans (by simp [hline, Value.toTextContent])
  · intro s' hs'
    by_cases hq : rand 0 ≤ alertThreshold
    · rw [checkNewAlerts_quiet rand s hq] at hs'
      rw [← Option.some.inj hs']
    · by_cases he : (s.elements "alertText").isSome = true
      · rw [checkNewAlerts_publish rand s (not_le.mp hq) he] at hs'
        rw [← Option.some.inj hs']
        rfl
      · unfold checkNewAlerts at hs'
        simp [not_le.mp hq, setTextContent_eq, he] at hs'
  · intro hp he
    refine ⟨_, line2, checkForNewAlerts_publish rand t (by rw [hb]; exact hp) he, hmem2, ?_⟩
    have := text_writeText_self "alertText"
      (arrayAt Script.alertTexts
        ⌊rand 1 * (Script.alertTexts.length : ℚ)⌋).toTextContent t.elements he
    exact this.trans (by simp [hline2, Value.toTextContent])
  · intro t' ht'
    by_cases hq : rand 0 ≤ Script.alertThreshold
    · rw [checkForNewAlerts_quiet rand t hq] at ht'
      rw [← Option.some.inj ht']
    · by_cases he : (t.elements "alertText").isSome = true
      · rw [checkForNewAlerts_publish rand t (not_le.mp hq) he] at ht'
        rw [← Option.some.inj ht']
      · unfold Script.checkForNewAlerts at ht'
        simp [not_le.mp hq, script_setTextContent_eq, he] at ht'

theorem alert_tick_pool_line_witness :
    0 ≤ (fun _ : ℕ => (9 / 10 : ℚ)) 1 ∧ (fun _ : ℕ => (9 / 10 : ℚ)) 1 < 1 ∧
    ((alertTexts.length = 4 ∧ Script.alertTexts.length = 4 ∧
      0 ≤ ⌊(fun _ : ℕ => (9 / 10 : ℚ)) 1 * 4⌋ ∧ ⌊(fun _ : ℕ => (9 / 10 : ℚ)) 1 * 4⌋ < 4) ∧
    (7 / 10 < (fun _ : ℕ => (9 / 10 : ℚ)) 0 → ((Page.initial (fun _ => some ⟨"", none⟩)).elements "alertText").isSome = true →
      ∃ s' line, checkNewAlerts (fun _ : ℕ => (9 / 10 : ℚ)) (Page.initial (fun _ => some ⟨"", none⟩)) = some s' ∧ line ∈ alertTexts ∧
        s'.text "alertText" = some line) ∧
    (∀ s', checkNewAlerts (fun _ : ℕ => (9 / 10 : ℚ)) (Page.initial (fun _ => some ⟨"", none⟩)) = some s' → s'.alertsContainer = (Page.initial (fun _ => some ⟨"", none⟩)).alertsContainer) ∧
    (8 / 10 < (fun _ : ℕ => (9 / 10 : ℚ)) 0 → ((Script.Page.initial (fun _ => some ⟨"", none⟩)).elements "alertText").isSome = true →
      ∃ t' line, Script.checkForNewAlerts (fun _ : ℕ => (9 / 10 : ℚ)) (Script.Page.initial (fun _ => some ⟨"", none⟩)) = some t' ∧ line ∈ Script.alertTexts ∧
        (t'.elements "alertText").map (fun e => e.textContent) = some line) ∧
    (∀ t', Script.checkForNewAlerts (fun _ : ℕ => (9 / 10 : ℚ)) (Script.Page.initial (fun _ => some ⟨"", none⟩)) = some t' →
      t'.alertsContainer = (Script.Page.initial (fun _ => some ⟨"", none⟩)).alertsContainer)) :=
  ⟨by norm_num, by norm_num,
   alert_tick_pool_line (fun _ => 9 / 10) (Page.initial (fun _ => some ⟨"", none⟩)) (Script.Page.initial (fun _ => some ⟨"", none⟩)) (by norm_num) (by norm_num)⟩

/-! ### Notification channel -/

theorem not_mem_classListRemove (classes : List String) (c : String) :
    c ∉ classListRemove classes c := by
  simp [classListRemove]

theorem hideNotification_hidden (s : Page) : (hideNotification s).notificationShown = false := by
  simp only [Page.notificationShown, hideNotification, decide_eq_false_iff_not]
  exact not_mem_classListRemove _ _

theorem elapse_innerHTML (d : Nat) (s : Page) :
    (elapse d s).notificationContainer.innerHTML = s.notificationContainer.innerHTML := by
  unfold elapse
  split <;> rfl

theorem elapse_of_none_due (d : Nat) (s : Page) (h : ∀ x ∈ s.timeouts, d < x.delay) :
    (elapse d s).notificationContainer = s.notificationContainer := by
  have hany : s.timeouts.any (fun x => decide (x.delay ≤ d)) = false := by
    rw [List.any_eq_false]
    intro x hx
    have := h x hx
    simp only [decide_eq_true_eq, not_le]
    exact this
  unfold elapse
  simp [hany]

theorem elapse_of_due (d : Nat) (s : Page) (h : ∃ x ∈ s.timeouts, x.delay ≤ d) :
    (elapse d s).notificationShown = false := by
  have hany : s.timeouts.any (fun x => decide (x.delay ≤ d)) = true := by
    rw [List.any_eq_true]
    obtain ⟨x, hx, hd⟩ := h
    exact ⟨x, hx, by simpa using hd⟩
  have e : (elapse d s).notificationContainer = (hideNotification s).notificationContainer := by
    unfold elapse
    simp [hany]
  have := hideNotification_hidden s
  simp only [Page.notificationShown] at this ⊢
  rw [e]
  exact this

theorem elapse_runs_innerHTML (ds : List Nat) (s : Page) :
    (ds.foldl (fun p d => elapse d p) s).notificationContainer.innerHTML
      = s.notificationContainer.innerHTML := by
  induction ds generalizing s with
  | nil => rfl
  | cons d ds ih =>
    simp only [List.foldl_cons]
    rw [ih, elapse_innerHTML]

theorem notificationColors_of_kind (k : String)
    (hk : k ∈ ["info", "success", "warning", "error"]) :
    ∃ c, notificationColors k = .string c := by
  simp only [List.mem_cons, List.mem_singleton, List.not_mem_nil, or_false] at hk
  rcases hk with rfl | rfl | rfl | rfl
  · exact ⟨"bg-blue-500", by simp [notificationColors]⟩
  · exact ⟨"bg-green-500", by simp [notificationColors]⟩
  · exact ⟨"bg-yellow-500", by simp [notificationColors]⟩
  · exact ⟨"bg-red-500", by simp [notificationColors]⟩

theorem mem_classListAdd_of_mem (classes : List String) (c x : String) (h : x ∈ classes) :
    x ∈ classListAdd classes c := by
  unfold classListAdd
  split
  · exact h
  · exact List.mem_append_left _ h

/-- C15: for a message `m` and a kind `k` among info, success, warning,
error, right after `showNotification(m, k)` the container is shown, its
markup is that of `m` (the message inside the `span`) and it carries the
color class of `k`; 3000 ms later, with no call in between, it is no longer
shown.  When no older timeout is pending it stays shown until then. -/
theorem notification_shown_then_hidden (m k : String) (s : Page)
    (hk : k ∈ ["info", "success", "warning", "error"]) :
    (showNotification m k s).notificationShown = true ∧
    (showNotification m k s).notificationContainer.innerHTML = notificationHTML m k ∧
    (∃ before after, notificationHTML m k = before ++ "<span>" ++ m ++ "</span>" ++ after) ∧
    (∃ c, notificationColors k = .string c ∧
      c ∈ (showNotification m k s).notificationContainer.classList) ∧
    (elapse 3000 (showNotification m k s)).notificationShown = false ∧
    (s.timeouts = [] → ∀ d, d < 3000 →
      (elapse d (showNotification m k s)).notificationShown = true) := by
  refine ⟨showNotification_shown m k s, rfl, ?_, ?_, ?_, ?_⟩
  · refine ⟨"\n        <div class=\"flex items-center\">\n            <i class=\"fas "
        ++ (notificationIcons k).toJSString ++ " mr-3\"></i>\n            ",
      "\n        </div>\n    ", ?_⟩
    simp only [notificationHTML, String.append_assoc]
    rfl
  · obtain ⟨c, hc⟩ := notificationColors_of_kind k hk
    refine ⟨c, hc, ?_⟩
    simp only [showNotification, hc, Value.toJSString]
    exact mem_classListAdd_of_mem _ _ _ (by simp)
  · apply elapse_of_due
    exact ⟨⟨3000⟩, by simp [showNotification], le_refl _⟩
  · intro h0 d hd
    have e := elapse_of_none_due d (showNotification m k s) (by
      intro x hx
      simp only [showNotification, h0, List.nil_append, List.mem_singleton] at hx
      rw [hx]
      exact hd)
    have := showNotification_shown m k s
    simp only [Page.notificationShown] at this ⊢
    rw [e]
    exact this

theorem notification_shown_then_hidden_witness :
    "success" ∈ ["info", "success", "warning", "error"] ∧
    ((showNotification "Data refreshed successfully" "success" (Page.initial (fun _ => none))).notificationShown = true ∧
    (showNotification "Data refreshed successfully" "success" (Page.initial (fun _ => none))).notificationContainer.innerHTML
      = notificationHTML "Data refreshed successfully" "success" ∧
    (∃ before after,
      notificationHTML "Data refreshed successfully" "success" = before ++ "<span>" ++ "Data refreshed successfully" ++ "</span>" ++ after) ∧
    (∃ c, notificationColors "success" = .string c ∧
      c ∈ (showNotification "Data refreshed successfully" "success" (Page.initial (fun _ => none))).notificationContainer.classList) ∧
    (elapse 3000 (showNotification "Data refreshed successfully" "success" (Page.initial (fun _ => none)))).notificationShown = false ∧
    ((Page.initial (fun _ => none)).timeouts = [] → ∀ d, d < 3000 →
      (elapse d (showNotification "Data refreshed successfully" "success" (Page.initial (fun _ => none)))).notificationShown = true)) :=
  ⟨by decide, notification_shown_then_hidden "Data refreshed successfully" "success"
    (Page.initial (fun _ => none)) (by decide)⟩

/-- C16 (counterexample): in `script.js`, the notification of
`filterResearchData` followed 1000 ms later by the one of
`checkForNewAlerts` leaves, 100 ms after the second call, two notification
elements in the body, both on screen: the first message is displayed
together with the second. -/
theorem script_notifications_coexist :
    ((Script.showNotification "Research data filtered successfully" "info"
        (Script.Page.initial (fun _ => none))).bind
      (fun t1 =>
        (Script.showNotification "New disaster alert received!" "warning"
            (Script.elapse 1000 t1)).map
          (fun t2 =>
            (Script.elapse 100 t2).body.map (fun n => (n.innerHTML, n.onScreen)))))
      = some [(Script.notificationHTML "Research data filtered successfully", true),
              (Script.notificationHTML "New disaster alert received!", true)] := by
  rfl

/-- C16 (amended): in `frontend-script.js`, `showNotification(m2, k2)`
replaces the markup and the classes of the one container whatever it held,
and no later timeout brings other markup back, so `m2` is the only message
displayed; in `script.js` each call appends a new element (off screen until
its 100 ms timeout) and leaves the elements of earlier calls in the body. -/
theorem notification_preempts_in_container (m2 k2 : String) (s : Page) (u : Script.Page)
    (hk : k2 ∈ ["info", "success", "warning", "error"]) :
    (showNotification m2 k2 s).notificationContainer.innerHTML = notificationHTML m2 k2 ∧
    (showNotification m2 k2 s).notificationContainer.classList
      = classListAdd
          ["notification", (notificationColors k2).toJSString, "text-white", "p-4",
           "rounded-lg", "shadow-lg"] "show" ∧
    (∀ ds : List Nat,
      (ds.foldl (fun p d => elapse d p)
          (showNotification m2 k2 s)).notificationContainer.innerHTML
        = notificationHTML m2 k2) ∧
    (∃ t' n, Script.showNotification m2 k2 u = some t' ∧
      t'.body = u.body ++ [n] ∧ n.innerHTML = Script.notificationHTML m2 ∧
      n.onScreen = false) := by
  refine ⟨rfl, rfl, ?_, ?_⟩
  · intro ds
    rw [elapse_runs_innerHTML]
    rfl
  · simp only [List.mem_cons, List.mem_singleton, List.not_mem_nil, or_false] at hk
    rcases hk with rfl | rfl | rfl | rfl <;>
      refine ⟨_, _, rfl, rfl, rfl, ?_⟩ <;>
      simp only [Script.Notification.onScreen, Bool.not_eq_false', decide_eq_true_eq] <;>
      decide

theorem notification_preempts_in_container_witness :
    "info" ∈ ["info", "success", "warning", "error"] ∧
    ((showNotification "second" "info" (Page.initial (fun _ => none))).notificationContainer.innerHTML = notificationHTML "second" "info" ∧
    (showNotification "second" "info" (Page.initial (fun _ => none))).notificationContainer.classList
      = classListAdd
          ["notification", (notificationColors "info").toJSString, "text-white", "p-4",
           "rounded-lg", "shadow-lg"] "show" ∧
    (∀ ds : List Nat,
      (ds.foldl (fun p d => elapse d p)
          (showNotification "second" "info" (Page.initial (fun _ => none)))).notificationContainer.innerHTML
        = notificationHTML "second" "info") ∧
    (∃ t' n, Script.showNotification "second" "info" (Script.Page.initial (fun _ => none)) = some t' ∧
      t'.body = (Script.Page.initial (fun _ => none)).body ++ [n] ∧ n.innerHTML = Script.notificationHTML "second" ∧
      n.onScreen = false)) :=
  ⟨by decide, notification_preempts_in_container "second" "info" (Page.initial (fun _ => none)) (Script.Page.initial (fun _ => none)) (by decide)⟩

theorem timeouts_elapse_first (m1 k1 : String) (s : Page) (t : Nat)
    (h0 : s.timeouts = []) (ht : t < 3000) :
    (elapse t (showNotification m1 k1 s)).timeouts = [⟨3000 - t⟩] := by
  simp [elapse, showNotification, h0, ht]

/-- C17: with no older timeout pending, when `showNotification(m2)` is
called `t` ms (0 < t < 3000) after `showNotification(m1)`, the timeout of
the first call is still pending with 3000 - t ms left; the container shows
`m2` for every delay below 3000 - t and is hidden from 3000 - t ms on, with
the markup of `m2` still in it.  A call only adds its timeout to the pending
ones and removes none. -/
theorem stale_timer_hides_second (m1 k1 m2 k2 : String) (s : Page) (t : Nat)
    (h0 : s.timeouts = []) (ht0 : 0 < t) (ht1 : t < 3000) :
    (showNotification m2 k2 (elapse t (showNotification m1 k1 s))).timeouts
      = [⟨3000 - t⟩, ⟨3000⟩] ∧
    (showNotification m2 k2
        (elapse t (showNotification m1 k1 s))).notificationContainer.innerHTML
      = notificationHTML m2 k2 ∧
    (∀ d, d < 3000 - t →
      (elapse d (showNotification m2 k2
        (elapse t (showNotification m1 k1 s)))).notificationShown = true) ∧
    (∀ d, 3000 - t ≤ d →
      (elapse d (showNotification m2 k2
        (elapse t (showNotification m1 k1 s)))).notificationShown = false ∧
      (elapse d (showNotification m2 k2
        (elapse t (showNotification m1 k1 s)))).notificationContainer.innerHTML
        = notificationHTML m2 k2) ∧
    (∀ (m k : String) (p : Page),
      (showNotification m k p).timeouts = p.timeouts ++ [⟨3000⟩]) := by
  have htm : (showNotification m2 k2 (elapse t (showNotification m1 k1 s))).timeouts
      = [⟨3000 - t⟩, ⟨3000⟩] := by
    have e1 : (showNotification m2 k2 (elapse t (showNotification m1 k1 s))).timeouts
        = (elapse t (showNotification m1 k1 s)).timeouts ++ [⟨3000⟩] := rfl
    rw [e1, timeouts_elapse_first m1 k1 s t h0 ht1]
    rfl
  refine ⟨htm, rfl, ?_, ?_, fun _ _ _ => rfl⟩
  · intro d hd
    have e := elapse_of_none_due d
      (showNotification m2 k2 (elapse t (showNotification m1 k1 s))) (by
        intro x hx
        rw [htm] at hx
        simp only [List.mem_cons, List.mem_singleton, List.not_mem_nil, or_false] at hx
        rcases hx with rfl | rfl
        · exact hd
        · show d < 3000
          omega)
    have := showNotification_shown m2 k2 (elapse t (showNotification m1 k1 s))
    simp only [Page.notificationShown] at this ⊢
    rw [e]
    exact this
  · intro d hd
    constructor
    · apply elapse_of_due
      exact ⟨⟨3000 - t⟩, by rw [htm]; simp, hd⟩
    · rw [elapse_innerHTML]
      rfl

theorem stale_timer_hides_second_witness :
    (Page.initial (fun _ => none)).timeouts = [] ∧ 0 < 1000 ∧ 1000 < 3000 ∧
    ((showNotification "second" "info" (elapse 1000 (showNotification "first" "success" (Page.initial (fun _ => none))))).timeouts
      = [⟨3000 - 1000⟩, ⟨3000⟩] ∧
    (showNotification "second" "info"
        (elapse 1000 (showNotification "first" "success" (Page.initial (fun _ => none))))).notificationContainer.innerHTML
      = notificationHTML "second" "info" ∧
    (∀ d, d < 3000 - 1000 →
      (elapse d (showNotification "second" "info"
        (elapse 1000 (showNotification "first" "success" (Page.initial (fun _ => none)))))).notificationShown = true) ∧
    (∀ d, 3000 - 1000 ≤ d →
      (elapse d (showNotification "second" "info"
        (elapse 1000 (showNotification "first" "success" (Page.initial (fun _ => none)))))).notificationShown = false ∧
      (elapse d (showNotification "second" "info"
        (elapse 1000 (showNotification "first" "success" (Page.initial (fun _ => none)))))).notificationContainer.innerHTML
        = notificationHTML "second" "info") ∧
    (∀ (m k : String) (p : Page),
      (showNotification m k p).timeouts = p.timeouts ++ [⟨3000⟩])) :=
  ⟨rfl, by decide, by decide,
   stale_timer_hides_second "first" "success" "second" "info" (Page.initial (fun _ => none)) 1000 rfl
     (by decide) (by decide)⟩

/-! ### Alert cards -/

/-- C18: whatever the alerts container held, `loadAlerts()` leaves in it
exactly the six cards of the fixture, in fixture order, so a second call
gives the same page as the first; the same holds for `loadAlerts` of
`script.js`. -/
theorem loadAlerts_idempotent (s : Page) (u : Script.Page) :
    (loadAlerts s).alertsContainer = alertTypes.map createAlertCard ∧
    (loadAlerts s).alertsContainer.length = 6 ∧
    loadAlerts (loadAlerts s) = loadAlerts s ∧
    (Script.loadAlerts u).alertsContainer = Script.alertCards.map Script.createAlertCard ∧
    (Script.loadAlerts u).alertsContainer.length = 6 ∧
    Script.loadAlerts (Script.loadAlerts u) = Script.loadAlerts u := by
  refine ⟨rfl, rfl, rfl, rfl, rfl, rfl⟩

/-! ### Write sets of the periodic timers -/

theorem agreeOutside_refl (W : List Loc) (s : Page) : s.agreeOutside W s :=
  ⟨fun _ _ => rfl, fun _ => rfl, fun _ => rfl, fun _ => ⟨rfl, rfl⟩, fun _ => rfl,
   fun _ => rfl, fun _ => rfl⟩

theorem agreeOutside_trans (W : List Loc) (a b c : Page)
    (h1 : a.agreeOutside W b) (h2 : b.agreeOutside W c) : a.agreeOutside W c := by
  obtain ⟨e1, a1, d1, n1, c1, m1, f1⟩ := h1
  obtain ⟨e2, a2, d2, n2, c2, m2, f2⟩ := h2
  refine ⟨fun id h => (e2 id h).trans (e1 id h), fun h => (a2 h).trans (a1 h),
    fun h => (d2 h).trans (d1 h),
    fun h => ⟨(n2 h).1.trans (n1 h).1, (n2 h).2.trans (n1 h).2⟩,
    fun h => (c2 h).trans (c1 h), fun h => (m2 h).trans (m1 h),
    fun h => (f2 h).trans (f1 h)⟩

theorem agreeOutside_elements (W : List Loc) (s : Page) (m : String → Option Slot)
    (h : ∀ id, Loc.element id ∉ W → m id = s.elements id) :
    s.agreeOutside W { s with elements := m } :=
  ⟨h, fun _ => rfl, fun _ => rfl, fun _ => ⟨rfl, rfl⟩, fun _ => rfl, fun _ => rfl,
   fun _ => rfl⟩

theorem setTextContent_agree (W : List Loc) (id text : String) (s s' : Page)
    (hW : Loc.element id ∈ W) (h : setTextContent id text s = some s') :
    s.agreeOutside W s' := by
  rw [setTextContent_eq] at h
  split at h
  · rw [← Option.some.inj h]
    apply agreeOutside_elements
    intro k hk
    have hne : k ≠ id := fun e => hk (e ▸ hW)
    simp [writeText, hne]
  · exact absurd h (by simp)

theorem setWidth_agree (W : List Loc) (id : String) (w : ℚ) (s s' : Page)
    (hW : Loc.element id ∈ W) (h : setWidth id w s = some s') :
    s.agreeOutside W s' := by
  rw [setWidth_eq] at h
  split at h
  · rw [← Option.some.inj h]
    apply agreeOutside_elements
    intro k hk
    have hne : k ≠ id := fun e => hk (e ▸ hW)
    simp [writeWidth, hne]
  · exact absurd h (by simp)

theorem updateMeasurement_agree (W : List Loc) (id : String) (value max : ℤ) (s : Page)
    (h1 : Loc.element id ∈ W) (h2 : Loc.element (id ++ "Bar") ∈ W) :
    s.agreeOutside W (updateMeasurement id value max s) := by
  rw [updateMeasurement_eq]
  apply agreeOutside_elements
  intro k hk
  have hne1 : k ≠ id := fun e => hk (e ▸ h1)
  have hne2 : k ≠ id ++ "Bar" := fun e => hk (e ▸ h2)
  simp [writeText, writeWidth, hne1, hne2]

theorem updateMeasurements_agree (rand : ℕ → ℚ) (s s' : Page)
    (h : updateMeasurements rand s = some s') :
    s.agreeOutside (Callback.writeSet .updateMeasurements) s' := by
  unfold updateMeasurements at h
  simp only [Option.bind_eq_bind, Option.bind_eq_some] at h
  obtain ⟨s1, h1, s2, h2, s3, h3, s4, h4, s5, h5, s6, h6, s7, h7, h8⟩ := h
  have a0 := updateMeasurement_agree (Callback.writeSet .updateMeasurements) "windSpeed"
    (measurements rand).windSpeed 100 s (by decide) (by decide)
  have a1 := setTextContent_agree (Callback.writeSet .updateMeasurements) _ _ _ _
    (by decide) h1
  have b1 := updateMeasurement_agree (Callback.writeSet .updateMeasurements) "temperature"
    (measurements rand).temperature 50 s1 (by decide) (by decide)
  have a2 := setTextContent_agree (Callback.writeSet .updateMeasurements) _ _ _ _
    (by decide) h2
  have b2 := updateMeasurement_agree (Callback.writeSet .updateMeasurements) "humidity"
    (measurements rand).humidity 100 s2 (by decide) (by decide)
  have a3 := setTextContent_agree (Callback.writeSet .updateMeasurements) _ _ _ _
    (by decide) h3
  have b3 := updateMeasurement_agree (Callback.writeSet .updateMeasurements) "airQuality"
    (measurements rand).airQuality 300 s3 (by decide) (by decide)
  have a4 := setTextContent_agree (Callback.writeSet .updateMeasurements) _ _ _ _
    (by decide) h4
  have a5 := setTextContent_agree (Callback.writeSet .updateMeasurements) _ _ _ _
    (by decide) h5
  have a6 := setWidth_agree (Callback.writeSet .updateMeasurements) _ _ _ _
    (by decide) h6
  have a7 := setTextContent_agree (Callback.writeSet .updateMeasurements) _ _ _ _
    (by decide) h7
  have b7 := updateMeasurement_agree (Callback.writeSet .updateMeasurements) "pressure"
    (measurements rand).pressure 1050 s7 (by decide) (by decide)
  have a8 := setTextContent_agree (Callback.writeSet .updateMeasurements) _ _ _ _
    (by decide) h8
  exact agreeOutside_trans _ _ _ _ (agreeOutside_trans _ _ _ _ (agreeOutside_trans _ _ _ _
    (agreeOutside_trans _ _ _ _ (agreeOutside_trans _ _ _ _ (agreeOutside_trans _ _ _ _
    (agreeOutside_trans _ _ _ _ (agreeOutside_trans _ _ _ _ (agreeOutside_trans _ _ _ _
    (agreeOutside_trans _ _ _ _ (agreeOutside_trans _ _ _ _ (agreeOutside_trans _ _ _ _
      a0 a1) b1) a2) b2) a3) b3) a4) a5) a6) a7) b7) a8

theorem updateStatistics_agree (rand : ℕ → ℚ) (s s' : Page)
    (h : updateStatistics rand s = some s') :
    s.agreeOutside (Callback.writeSet .updateStatistics) s' := by
  unfold updateStatistics at h
  simp only [Option.bind_eq_bind, Option.bind_eq_some] at h
  obtain ⟨s1, h1, s2, h2, s3, h3, s4, h4, s5, h5, s6, h6, h7⟩ := h
  have a1 := setTextContent_agree (Callback.writeSet .updateStatistics) _ _ _ _
    (by decide) h1
  have a2 := setTextContent_agree (Callback.writeSet .updateStatistics) _ _ _ _
    (by decide) h2
  have a3 := setTextContent_agree (Callback.writeSet .updateStatistics) _ _ _ _
    (by decide) h3
  have a4 := setTextContent_agree (Callback.writeSet .updateStatistics) _ _ _ _
    (by decide) h4
  have a5 := setTextContent_agree (Callback.writeSet .updateStatistics) _ _ _ _
    (by decide) h5
  have a6 := setTextContent_agree (Callback.writeSet .updateStatistics) _ _ _ _
    (by decide) h6
  have a7 := setTextContent_agree (Callback.writeSet .updateStatistics) _ _ _ _
    (by decide) h7
  exact agreeOutside_trans _ _ _ _ (agreeOutside_trans _ _ _ _ (agreeOutside_trans _ _ _ _
    (agreeOutside_trans _ _ _ _ (agreeOutside_trans _ _ _ _ (agreeOutside_trans _ _ _ _
      a1 a2) a3) a4) a5) a6) a7

theorem updateCharts_agree (now : ℤ) (rand : ℕ → ℚ) (s : Page) :
    s.agreeOutside (Callback.writeSet .updateCharts) (updateCharts now rand s) := by
  have hA : Loc.activityChart ∈ Callback.writeSet .updateCharts := by decide
  have hD : Loc.disasterChart ∈ Callback.writeSet .updateCharts := by decide
  unfold updateCharts
  cases s.charts.activity <;>
    exact ⟨fun _ _ => rfl, fun h => absurd hA h, fun h => absurd hD h,
      fun _ => ⟨rfl, rfl⟩, fun _ => rfl, fun _ => rfl, fun _ => rfl⟩

theorem checkNewAlerts_agree (rand : ℕ → ℚ) (s s' : Page)
    (h : checkNewAlerts rand s = some s') :
    s.agreeOutside (Callback.writeSet .checkNewAlerts) s' := by
  have hN : Loc.notification ∈ Callback.writeSet .checkNewAlerts := by decide
  by_cases hq : rand 0 ≤ alertThreshold
  · rw [checkNewAlerts_quiet rand s hq] at h
    rw [← Option.some.inj h]
    exact agreeOutside_refl _ _
  · unfold checkNewAlerts at h
    rw [if_pos (not_le.mp hq)] at h
    simp only [Option.bind_eq_bind, Option.bind_eq_some] at h
    obtain ⟨s1, h1, h2⟩ := h
    have a1 := setTextContent_agree (Callback.writeSet .checkNewAlerts) _ _ _ _
      (by decide) h1
    rw [← Option.some.inj h2]
    refine agreeOutside_trans _ _ _ _ a1 ?_
    exact ⟨fun _ _ => rfl, fun _ => rfl, fun _ => rfl, fun h => absurd hN h,
      fun _ => rfl, fun _ => rfl, fun _ => rfl⟩

theorem writeSets_disjoint (a b : Callback) (hab : a ≠ b) :
    ∀ l ∈ Callback.writeSet a, l ∉ Callback.writeSet b := by
  cases a <;> cases b <;> first | exact absurd rfl hab | decide

/-- C19: the four timers of `startRealTimeUpdates` (periods 2000, 5000,
10000 and 15000 ms) run callbacks with pairwise disjoint write sets: a run
of a callback leaves every place outside its own write set as it was, and no
place of its write set is in the write set of another callback. -/
theorem timer_write_sets_disjoint (c : Callback) (now : ℤ) (rand : ℕ → ℚ) (s s' : Page)
    (h : c.run now rand s = some s') :
    c ∈ startRealTimeUpdates.map Prod.snd ∧
    startRealTimeUpdates.map Prod.fst = [2000, 5000, 10000, 15000] ∧
    s.agreeOutside (Callback.writeSet c) s' ∧
    (∀ b : Callback, b ≠ c → ∀ l ∈ Callback.writeSet c, l ∉ Callback.writeSet b) ∧
    (∀ a b : Callback, a ≠ b → ∀ l ∈ Callback.writeSet a, l ∉ Callback.writeSet b) := by
  refine ⟨by cases c <;> decide, rfl, ?_, fun b hb => writeSets_disjoint c b (Ne.symm hb),
    writeSets_disjoint⟩
  cases c with
  | updateMeasurements => exact updateMeasurements_agree rand s s' h
  | updateStatistics => exact updateStatistics_agree rand s s' h
  | updateCharts =>
    have e : updateCharts now rand s = s' := Option.some.inj h
    rw [← e]
    exact updateCharts_agree now rand s
  | checkNewAlerts => exact checkNewAlerts_agree rand s s' h

theorem timer_write_sets_disjoint_witness :
    Callback.run .updateCharts 50700000 (fun _ => 1 / 2)
        (initializeCharts 0 (fun _ => 0) (Page.initial (fun _ => none)))
      = some (updateCharts 50700000 (fun _ => 1 / 2)
          (initializeCharts 0 (fun _ => 0) (Page.initial (fun _ => none)))) ∧
    (.updateCharts ∈ startRealTimeUpdates.map Prod.snd ∧
    startRealTimeUpdates.map Prod.fst = [2000, 5000, 10000, 15000] ∧
    (initializeCharts 0 (fun _ => 0) (Page.initial (fun _ => none))).agreeOutside (Callback.writeSet .updateCharts) (updateCharts 50700000 (fun _ => 1 / 2)
        (initializeCharts 0 (fun _ => 0) (Page.initial (fun _ => none)))) ∧
    (∀ b : Callback, b ≠ .updateCharts → ∀ l ∈ Callback.writeSet .updateCharts, l ∉ Callback.writeSet b) ∧
    (∀ a b : Callback, a ≠ b → ∀ l ∈ Callback.writeSet a, l ∉ Callback.writeSet b)) :=
  ⟨rfl, timer_write_sets_disjoint .updateCharts 50700000 (fun _ => 1 / 2)
    (initializeCharts 0 (fun _ => 0) (Page.initial (fun _ => none))) _ rfl⟩

/-! ### Empty activity series -/

/-- C20: on an activity chart whose value and label sequences are empty,
one `updateCharts` tick leaves each sequence with exactly one element (the
new sample, the label of the tick time): the lengths go from 0 to 1. -/
theorem empty_series_grows (s : Page) (a : Chart) (now : ℤ) (rand : ℕ → ℚ)
    (ha : s.charts.activity = some a) (hd : a.data = []) (hl : a.labels = []) :
    ∃ a', (updateCharts now rand s).charts.activity = some a' ∧
      a'.data = [⌊rand 0 * 20⌋ + 5] ∧ a'.labels = [toLocaleTimeString now] ∧
      a'.data.length = 1 ∧ a'.labels.length = 1 ∧
      a'.data.length ≠ a.data.length ∧ a'.labels.length ≠ a.labels.length := by
  refine ⟨updateActivity (⌊rand 0 * 20⌋ + 5) (toLocaleTimeString now) a, ?_, ?_, ?_, ?_, ?_,
    ?_, ?_⟩
  · rw [updateCharts_activity, ha]
    rfl
  · simp [updateActivity, hd]
  · simp [updateActivity, hl]
  · simp [updateActivity, hd]
  · simp [updateActivity, hl]
  · simp [updateActivity, hd]
  · simp [updateActivity, hl]

theorem empty_series_grows_witness :
    ({ Page.initial (fun _ => none) with
        charts := { disaster := none, activity := some ⟨"line", [], [], 0⟩ } }).charts.activity = some ⟨"line", [], [], 0⟩ ∧
    (⟨"line", [], [], 0⟩ : Chart).data = [] ∧ (⟨"line", [], [], 0⟩ : Chart).labels = [] ∧
    (∃ a', (updateCharts 50700000 (fun _ : ℕ => (1 / 2 : ℚ)) 
      { Page.initial (fun _ => none) with
        charts := { disaster := none, activity := some ⟨"line", [], [], 0⟩ } }).charts.activity = some a' ∧
      a'.data = [⌊(fun _ : ℕ => (1 / 2 : ℚ)) 0 * 20⌋ + 5] ∧ a'.labels = [toLocaleTimeString 50700000] ∧
      a'.data.length = 1 ∧ a'.labels.length = 1 ∧
      a'.data.length ≠ (⟨"line", [], [], 0⟩ : Chart).data.length ∧ a'.labels.length ≠ (⟨"line", [], [], 0⟩ : Chart).labels.length) :=
  ⟨rfl, rfl, rfl,
   empty_series_grows
     { Page.initial (fun _ => none) with
        charts := { disaster := none, activity := some ⟨"line", [], [], 0⟩ } }
     ⟨"line", [], [], 0⟩ 50700000 (fun _ => 1 / 2) rfl rfl rfl⟩

/-! ### Unreachable seismic status -/

/-- C21: for a draw in [0,1) the magnitude generated by `updateMeasurements`
is at most 4.0, so the test `magnitude > 4` fails and the status written to
`seismicStatus` is Moderate (when the magnitude is above 2) or Low, never
High. -/
theorem seismic_status_never_high (rand : ℕ → ℚ) (s : Page)
    (h0 : 0 ≤ rand 4) (h1 : rand 4 < 1)
    (h : ∀ id ∈ measurementIds, (s.elements id).isSome = true) :
    (measurements rand).seismic.toNumber ≤ 4 ∧
    ¬ ((measurements rand).seismic.toNumber > 4) ∧
    ∃ s', updateMeasurements rand s = some s' ∧
      (s'.text "seismicStatus" = some "Moderate" ∨ s'.text "seismicStatus" = some "Low") ∧
      s'.text "seismicStatus" ≠ some "High" ∧
      (s'.text "seismicStatus" = some "Moderate" ↔
        2 < (measurements rand).seismic.toNumber) := by
  obtain ⟨_, hle⟩ := seismic_toNumber_bounds rand h0 h1
  have hs : (s.elements "seismicStatus").isSome = true :=
    h "seismicStatus" (by simp [measurementIds])
  have es := text_measurementWrites_seismicStatus rand s.elements
  rw [map_const_of_isSome _ _ hs] at es
  have hng : ¬ ((measurements rand).seismic.toNumber > 4) := not_lt.mpr hle
  rw [if_neg hng] at es
  have ht : Page.text { s with elements := measurementWrites rand s.elements }
      "seismicStatus"
      = some (if (measurements rand).seismic.toNumber > 2 then "Moderate" else "Low") := es
  refine ⟨hle, hng, _, updateMeasurements_eq rand s h, ?_, ?_, ?_⟩
  · rw [ht]
    by_cases h2 : (measurements rand).seismic.toNumber > 2
    · left
      rw [if_pos h2]
    · right
      rw [if_neg h2]
  · rw [ht]
    by_cases h2 : (measurements rand).seismic.toNumber > 2
    · rw [if_pos h2]
      decide
    · rw [if_neg h2]
      decide
  · rw [ht]
    by_cases h2 : (measurements rand).seismic.toNumber > 2
    · rw [if_pos h2]
      exact ⟨fun _ => h2, fun _ => rfl⟩
    · rw [if_neg h2]
      exact ⟨fun hc => absurd hc (by decide), fun hc => absurd hc h2⟩

theorem seismic_status_never_high_witness :
    0 ≤ (fun _ : ℕ => (99 / 100 : ℚ)) 4 ∧ (fun _ : ℕ => (99 / 100 : ℚ)) 4 < 1 ∧
    (∀ id ∈ measurementIds, ((Page.initial (fun _ => some ⟨"", none⟩)).elements id).isSome = true) ∧
    ((measurements (fun _ : ℕ => (99 / 100 : ℚ))).seismic.toNumber ≤ 4 ∧
    ¬ ((measurements (fun _ : ℕ => (99 / 100 : ℚ))).seismic.toNumber > 4) ∧
    ∃ s', updateMeasurements (fun _ : ℕ => (99 / 100 : ℚ)) (Page.initial (fun _ => some ⟨"", none⟩)) = some s' ∧
      (s'.text "seismicStatus" = some "Moderate" ∨ s'.text "seismicStatus" = some "Low") ∧
      s'.text "seismicStatus" ≠ some "High" ∧
      (s'.text "seismicStatus" = some "Moderate" ↔
        2 < (measurements (fun _ : ℕ => (99 / 100 : ℚ))).seismic.toNumber)) :=
  ⟨by norm_num, by norm_num, fun _ _ => rfl,
   seismic_status_never_high (fun _ => 99 / 100) (Page.initial (fun _ => some ⟨"", none⟩))
     (by norm_num) (by norm_num) (fun _ _ => rfl)⟩

/-! ### Random series -/

theorem generateRandomData_mem (rand : ℕ → ℚ) (count : Nat) (min max : ℤ)
    (hmm : min ≤ max) (hr : ∀ i, 0 ≤ rand i ∧ rand i < 1) :
    ∀ v ∈ generateRandomData rand count min max, min ≤ v ∧ v ≤ max := by
  intro v hv
  simp only [generateRandomData, List.mem_map, List.mem_range] at hv
  obtain ⟨i, _, rfl⟩ := hv
  have hb := floor_draw_bounds (rand i) (max - min + 1) (by omega) (hr i).1 (hr i).2
  obtain ⟨hlo, hhi⟩ := hb
  constructor <;> omega

/-- C23: for `min ≤ max` and draws in [0,1), `generateRandomData(count, min,
max)` returns exactly `count` values, the `i`-th being
`⌊r_i * (max - min + 1)⌋ + min`, and every value is an integer between `min`
and `max`, both included. -/
theorem generateRandomData_range (rand : ℕ → ℚ) (count : Nat) (min max : ℤ)
    (hmm : min ≤ max) (hr : ∀ i, 0 ≤ rand i ∧ rand i < 1) :
    (generateRandomData rand count min max).length = count ∧
    (∀ i, i < count →
      (generateRandomData rand count min max)[i]?
        = some (⌊rand i * ((max - min + 1 : ℤ) : ℚ)⌋ + min)) ∧
    (∀ v ∈ generateRandomData rand count min max, min ≤ v ∧ v ≤ max) := by
  refine ⟨length_generateRandomData rand count min max, ?_,
    generateRandomData_mem rand count min max hmm hr⟩
  intro i hi
  simp [generateRandomData, hi]

theorem generateRandomData_range_witness :
    (5 : ℤ) ≤ 25 ∧ (∀ i : ℕ, 0 ≤ (fun _ : ℕ => (1 / 2 : ℚ)) i ∧ (fun _ : ℕ => (1 / 2 : ℚ)) i < 1) ∧
    ((generateRandomData (fun _ : ℕ => (1 / 2 : ℚ)) 12 5 25).length = 12 ∧
    (∀ i, i < 12 →
      (generateRandomData (fun _ : ℕ => (1 / 2 : ℚ)) 12 5 25)[i]?
        = some (⌊(fun _ : ℕ => (1 / 2 : ℚ)) i * ((25 - 5 + 1 : ℤ) : ℚ)⌋ + 5)) ∧
    (∀ v ∈ generateRandomData (fun _ : ℕ => (1 / 2 : ℚ)) 12 5 25, 5 ≤ v ∧ v ≤ 25)) :=
  ⟨by decide, fun _ => by norm_num,
   generateRandomData_range (fun _ => 1 / 2) 12 5 25 (by decide) (fun _ => by norm_num)⟩

/-! ### Range of the activity series -/

theorem activity_sample_bounds (r : ℚ) (h0 : 0 ≤ r) (h1 : r < 1) :
    5 ≤ ⌊r * 20⌋ + 5 ∧ ⌊r * 20⌋ + 5 ≤ 24 := by
  have hb := floor_draw_bounds r 20 (by norm_num) h0 h1
  obtain ⟨hlo, hhi⟩ := hb
  push_cast at hlo hhi
  constructor <;> omega

theorem values_step (now : ℤ) (rand : ℕ → ℚ) (s : Page)
    (hr : 0 ≤ rand 0 ∧ rand 0 < 1)
    (h : ∀ a, s.charts.activity = some a → ∀ v ∈ a.data, 5 ≤ v ∧ v ≤ 25) :
    ∀ a, (updateCharts now rand s).charts.activity = some a →
      ∀ v ∈ a.data, 5 ≤ v ∧ v ≤ 25 := by
  intro a ha v hv
  rw [updateCharts_activity] at ha
  cases hs : s.charts.activity with
  | none => simp [hs] at ha
  | some a0 =>
    simp only [hs, Option.map_some', Option.some.injEq] at ha
    subst ha
    simp only [updateActivity, List.mem_append, List.mem_singleton] at hv
    rcases hv with hv | hv
    · exact h a0 hs v (List.mem_of_mem_tail hv)
    · rw [hv]
      obtain ⟨hlo, hhi⟩ := activity_sample_bounds (rand 0) hr.1 hr.2
      exact ⟨hlo, by omega⟩

theorem values_run (ticks : List (ℤ × (ℕ → ℚ))) (s : Page)
    (ht : ∀ t ∈ ticks, ∀ i, 0 ≤ t.2 i ∧ t.2 i < 1)
    (h : ∀ a, s.charts.activity = some a → ∀ v ∈ a.data, 5 ≤ v ∧ v ≤ 25) :
    ∀ a, (runChartTicks ticks s).charts.activity = some a →
      ∀ v ∈ a.data, 5 ≤ v ∧ v ≤ 25 := by
  induction ticks generalizing s with
  | nil => exact h
  | cons t ts ih =>
    simp only [runChartTicks, List.foldl_cons]
    apply ih
    · intro u hu
      exact ht u (List.mem_cons_of_mem _ hu)
    · exact values_step t.1 t.2 s (ht t (List.mem_cons_self _ _) 0) h

theorem values_initial (now : ℤ) (rand : ℕ → ℚ) (s : Page)
    (hr : ∀ i, 0 ≤ rand i ∧ rand i < 1) :
    ∀ a, (initializeCharts now rand s).charts.activity = some a →
      ∀ v ∈ a.data, 5 ≤ v ∧ v ≤ 25 := by
  intro a ha v hv
  simp only [initializeCharts, Option.some.injEq] at ha
  subst ha
  exact generateRandomData_mem rand 12 5 25 (by decide) hr v hv

theorem activity_exists_of_window (s : Page)
    (h : s.charts.activity.map (fun a => (a.labels.length, a.data.length)) = some (12, 12)) :
    ∃ a, s.charts.activity = some a := by
  cases hs : s.charts.activity with
  | none => simp [hs] at h
  | some a => exact ⟨a, rfl⟩

/-- C22: with all draws in [0,1), every value of the activity chart is an
integer between 5 and 25 after `initializeCharts` (the values of
`generateRandomData(12, 5, 25)`) and after any run of `updateCharts` ticks;
the sample a tick appends, `⌊r * 20⌋ + 5`, lies between 5 and 24. -/
theorem activity_values_in_range (s0 : Page) (now0 : ℤ) (rand0 : ℕ → ℚ)
    (ticks : List (ℤ × (ℕ → ℚ))) (now : ℤ) (rand : ℕ → ℚ)
    (h0 : ∀ i, 0 ≤ rand0 i ∧ rand0 i < 1)
    (ht : ∀ t ∈ ticks, ∀ i, 0 ≤ t.2 i ∧ t.2 i < 1)
    (hr : 0 ≤ rand 0 ∧ rand 0 < 1) :
    (∃ a, (initializeCharts now0 rand0 s0).charts.activity = some a ∧
      a.data = generateRandomData rand0 12 5 25 ∧ ∀ v ∈ a.data, 5 ≤ v ∧ v ≤ 25) ∧
    (∃ a, (runChartTicks ticks (initializeCharts now0 rand0 s0)).charts.activity
        = some a ∧ ∀ v ∈ a.data, 5 ≤ v ∧ v ≤ 25) ∧
    (∃ a, (updateCharts now rand
          (runChartTicks ticks (initializeCharts now0 rand0 s0))).charts.activity
        = some a ∧
      a.data.getLast? = some (⌊rand 0 * 20⌋ + 5) ∧
      5 ≤ ⌊rand 0 * 20⌋ + 5 ∧ ⌊rand 0 * 20⌋ + 5 ≤ 24 ∧
      ∀ v ∈ a.data, 5 ≤ v ∧ v ≤ 25) := by
  have hinit := values_initial now0 rand0 s0 h0
  have hrun := values_run ticks _ ht hinit
  have hstep := values_step now rand _ hr hrun
  have wrun := window_run ticks _ (window_initial now0 rand0 s0)
  have wstep := window_step now rand _ wrun
  obtain ⟨a1, ha1⟩ := activity_exists_of_window _ wrun
  obtain ⟨a2, ha2⟩ := activity_exists_of_window _ wstep
  refine ⟨⟨_, rfl, rfl, hinit _ rfl⟩, ⟨a1, ha1, hrun a1 ha1⟩, ⟨a2, ha2, ?_, ?_, ?_, hstep a2 ha2⟩⟩
  · have e := updateCharts_activity now rand
      (runChartTicks ticks (initializeCharts now0 rand0 s0))
    rw [ha1, ha2] at e
    simp only [Option.map_some', Option.some.injEq] at e
    rw [e]
    simp [updateActivity]
  · exact (activity_sample_bounds (rand 0) hr.1 hr.2).1
  · exact (activity_sample_bounds (rand 0) hr.1 hr.2).2

theorem activity_values_in_range_witness :
    (∀ i : ℕ, 0 ≤ (fun _ : ℕ => (1 / 2 : ℚ)) i ∧ (fun _ : ℕ => (1 / 2 : ℚ)) i < 1) ∧
    (∀ t ∈ [((50700000 : ℤ), (fun _ : ℕ => (1 / 3 : ℚ)))], ∀ i : ℕ, 0 ≤ t.2 i ∧ t.2 i < 1) ∧
    (0 ≤ (fun _ : ℕ => (1 / 2 : ℚ)) 0 ∧ (fun _ : ℕ => (1 / 2 : ℚ)) 0 < 1) ∧
    ((∃ a, (initializeCharts 0 (fun _ : ℕ => (1 / 2 : ℚ)) (Page.initial (fun _ => none))).charts.activity = some a ∧
      a.data = generateRandomData (fun _ : ℕ => (1 / 2 : ℚ)) 12 5 25 ∧ ∀ v ∈ a.data, 5 ≤ v ∧ v ≤ 25) ∧
    (∃ a, (runChartTicks [((50700000 : ℤ), (fun _ : ℕ => (1 / 3 : ℚ)))] (initializeCharts 0 (fun _ : ℕ => (1 / 2 : ℚ)) (Page.initial (fun _ => none)))).charts.activity
        = some a ∧ ∀ v ∈ a.data, 5 ≤ v ∧ v ≤ 25) ∧
    (∃ a, (updateCharts 50760000 (fun _ : ℕ => (1 / 2 : ℚ))
          (runChartTicks [((50700000 : ℤ), (fun _ : ℕ => (1 / 3 : ℚ)))] (initializeCharts 0 (fun _ : ℕ => (1 / 2 : ℚ)) (Page.initial (fun _ => none))))).charts.activity
        = some a ∧
      a.data.getLast? = some (⌊(fun _ : ℕ => (1 / 2 : ℚ)) 0 * 20⌋ + 5) ∧
      5 ≤ ⌊(fun _ : ℕ => (1 / 2 : ℚ)) 0 * 20⌋ + 5 ∧ ⌊(fun _ : ℕ => (1 / 2 : ℚ)) 0 * 20⌋ + 5 ≤ 24 ∧
      ∀ v ∈ a.data, 5 ≤ v ∧ v ≤ 25)) :=
  ⟨fun _ => by norm_num,
   fun t ht i => by
     simp only [List.mem_singleton] at ht
     subst ht
     norm_num,
   by norm_num,
   activity_values_in_range (Page.initial (fun _ => none)) 0 (fun _ => 1 / 2) [((50700000 : ℤ), (fun _ : ℕ => (1 / 3 : ℚ)))] 50760000 (fun _ => 1 / 2)
     (fun _ => by norm_num)
     (fun t ht i => by
       simp only [List.mem_singleton] at ht
       subst ht
       norm_num)
     (by norm_num)⟩

end Dashboard
